import Mathlib

/-!
Verification of the fiscal-document acquisition and normalization pipeline
(backend/app: services/xml_handler.py, services/scraper_handler.py,
services/browser_fetcher.py, and the persistence coordinator in main.py).

The Python code is shallowly embedded: HTML documents parsed by
BeautifulSoup are modelled as a rose tree of elements and text nodes,
XML documents parsed by ElementTree likewise; Python floats are modelled
as rationals, `uuid4` entropy and `date.today()` are explicit parameters,
the database session is explicit state, and Python exceptions are
`Except` values.  Functions keep the names of their Python sources.
-/

namespace Erp

/-! ## Python string semantics helpers -/

/-- Python whitespace test for the ASCII subset that occurs in these
documents (models `str.isspace` / the `\s` regex class). -/
def isWs (c : Char) : Bool :=
  c = ' ' || c = '\t' || c = '\n' || c = '\r' || c = '\x0b' || c = '\x0c'

/-- Drop leading whitespace characters. -/
def dropWsLead (cs : List Char) : List Char :=
  cs.dropWhile isWs

/-- Models Python `str.strip()` on a character list. -/
def stripChars (cs : List Char) : List Char :=
  ((cs.dropWhile isWs).reverse.dropWhile isWs).reverse

/-- Models Python `str.strip()`. -/
def pyStrip (s : String) : String :=
  String.mk (stripChars s.toList)

/-- Models Python `str.lower()` (ASCII letters; the phrases compared in
this code are ASCII). -/
def pyLower (s : String) : String :=
  String.mk (s.toList.map Char.toLower)

/-- Helper of `pySplitWs`: accumulates the current token reversed. -/
def splitWsAux : List Char → List Char → List (List Char)
  | [], acc => if acc = [] then [] else [acc.reverse]
  | c :: cs, acc =>
      if isWs c then
        (if acc = [] then [] else [acc.reverse]) ++ splitWsAux cs []
      else
        splitWsAux cs (c :: acc)

/-- Models Python `str.split()` with no argument: split on whitespace
runs, producing no empty tokens. -/
def pySplitWs (s : String) : List String :=
  (splitWsAux s.toList []).map String.mk

/-- Substring scan over character lists. -/
def containsSubChars (pat : List Char) : List Char → Bool
  | [] => pat.isEmpty
  | c :: cs => pat.isPrefixOf (c :: cs) || containsSubChars pat cs

/-- Substring test (`needle in haystack` in Python). -/
def strContains (haystack needle : String) : Bool :=
  containsSubChars needle.toList haystack.toList

/-- Models Python `str.startswith`. -/
def strStartsWith (s pat : String) : Bool :=
  pat.toList.isPrefixOf s.toList

/-- Models Python `str.endswith` / ElementTree tag-suffix checks. -/
def strEndsWith (s pat : String) : Bool :=
  pat.toList.reverse.isPrefixOf s.toList.reverse

/-- Helper of `pyReplace`: non-overlapping left-to-right replacement of
a non-empty pattern.  The fuel, always at least the input length, only
makes the recursion structural: every step consumes at least one
character. -/
def replaceAux (pat rep : List Char) : Nat → List Char → List Char
  | 0, l => l
  | _, [] => []
  | fuel + 1, c :: cs =>
      if pat.isPrefixOf (c :: cs) then
        rep ++ replaceAux pat rep fuel (cs.drop (pat.length - 1))
      else
        c :: replaceAux pat rep fuel cs

/-- Models Python `str.replace(pat, rep)` (every use in this codebase
has a non-empty pattern). -/
def pyReplace (s pat rep : String) : String :=
  match pat.toList with
  | [] => s
  | p :: ps => String.mk (replaceAux (p :: ps) rep.toList s.toList.length s.toList)

/-- Helper of `pySplitOnStr`, accumulating the current piece reversed;
fuel as in `replaceAux`. -/
def splitOnStrAux (sep : List Char) : Nat → List Char → List Char → List (List Char)
  | 0, _, acc => [acc.reverse]
  | _, [], acc => [acc.reverse]
  | fuel + 1, c :: cs, acc =>
      if sep.isPrefixOf (c :: cs) then
        acc.reverse :: splitOnStrAux sep fuel (cs.drop (sep.length - 1)) []
      else
        splitOnStrAux sep fuel cs (c :: acc)

/-- Models Python `str.split(sep)` for a non-empty separator (adjacent
separators produce empty pieces, as in Python). -/
def pySplitOnStr (s sep : String) : List String :=
  match sep.toList with
  | [] => [s]
  | p :: ps => (splitOnStrAux (p :: ps) s.toList.length s.toList []).map String.mk

/-- Decimal digits value of a digit list. -/
def digitsVal (cs : List Char) : Nat :=
  cs.foldl (fun acc c => acc * 10 + (c.toNat - 48)) 0

/-- Models Python `int(s)`: optional surrounding whitespace, optional
sign, at least one decimal digit. -/
def pyInt? (s : String) : Option Int :=
  let cs := stripChars s.toList
  let (sign, digits) : Int × List Char :=
    match cs with
    | '-' :: rest => (-1, rest)
    | '+' :: rest => (1, rest)
    | rest => (1, rest)
  if digits ≠ [] ∧ digits.all Char.isDigit then
    some (sign * Int.ofNat (digitsVal digits))
  else
    none

/-- Exact decimal value `mantissa / 10 ^ scale` in canonical form
(trailing zeros stripped).  Every Python float of this pipeline comes
from a decimal literal, and the code only compares such values,
multiplies two of them, and tests positivity — all exact on decimals,
so this represents the float semantics the source relies on. -/
structure PyFloat where
  mantissa : Int
  scale : Nat
deriving DecidableEq, Repr

/-- Canonicalize a scaled decimal by stripping factors of ten, so that
equal values share one representation. -/
def decNorm : Int → Nat → Int × Nat
  | m, 0 => (m, 0)
  | m, s + 1 => if m % 10 = 0 then decNorm (m / 10) s else (m, s + 1)

/-- Canonical decimal from mantissa and scale. -/
def PyFloat.ofDec (m : Int) (s : Nat) : PyFloat :=
  let n := decNorm m s
  ⟨n.1, n.2⟩

/-- The Python float `0.0`. -/
def PyFloat.zero : PyFloat := ⟨0, 0⟩

/-- Exact product (used by the `unit_price * quantity` fallback). -/
def PyFloat.mul (a b : PyFloat) : PyFloat :=
  PyFloat.ofDec (a.mantissa * b.mantissa) (a.scale + b.scale)

/-- Positivity (`value > 0`). -/
def PyFloat.isPos (a : PyFloat) : Bool :=
  0 < a.mantissa

/-- Non-negativity (`value >= 0`). -/
def PyFloat.isNonNeg (a : PyFloat) : Bool :=
  0 ≤ a.mantissa

instance (n : Nat) : OfNat PyFloat n :=
  ⟨⟨Int.ofNat n, 0⟩⟩

/-- Models Python `float(s)` on the decimal literals this pipeline
produces (optional surrounding whitespace, optional sign, digits with at
most one decimal point; exponent/`inf`/`nan` forms do not arise from the
scraped tokens and are not modelled). -/
def pyFloat? (s : String) : Option PyFloat :=
  let cs := stripChars s.toList
  let (sign, body) : Int × List Char :=
    match cs with
    | '-' :: rest => (-1, rest)
    | '+' :: rest => (1, rest)
    | rest => (1, rest)
  match body.splitOn '.' with
  | [intPart] =>
      if intPart ≠ [] ∧ intPart.all Char.isDigit then
        some (PyFloat.ofDec (sign * Int.ofNat (digitsVal intPart)) 0)
      else none
  | [intPart, fracPart] =>
      if (intPart ++ fracPart) ≠ [] ∧ intPart.all Char.isDigit ∧
          fracPart.all Char.isDigit then
        some (PyFloat.ofDec
          (sign * Int.ofNat (digitsVal intPart * 10 ^ fracPart.length +
            digitsVal fracPart))
          fracPart.length)
      else none
  | _ => none

instance {ε α : Type} [DecidableEq ε] [DecidableEq α] : DecidableEq (Except ε α) :=
  fun a b =>
    match a, b with
    | .ok x, .ok y =>
        if h : x = y then isTrue (by rw [h]) else isFalse (by simp [h])
    | .error e, .error f =>
        if h : e = f then isTrue (by rw [h]) else isFalse (by simp [h])
    | .ok _, .error _ => isFalse (by simp)
    | .error _, .ok _ => isFalse (by simp)

/-- Python exceptions that escape the embedded functions.
`typeError` is the `TypeError` of calling a non-callable (the
`'NoneType' object is not callable` of the sibling walk). -/
inductive PyErr where
  | valueError (msg : String)
  | typeError
  | httpError
deriving DecidableEq, Repr

/-- Gregorian calendar date as produced by `datetime.date`. -/
structure PyDate where
  year : Int
  month : Int
  day : Int
deriving DecidableEq, Repr

/-- Day count of a month, with Gregorian leap years (models the validity
check of the `datetime.date` constructor). -/
def daysInMonth (year month : Int) : Int :=
  if month = 2 then
    if year % 4 = 0 ∧ (year % 100 ≠ 0 ∨ year % 400 = 0) then 29 else 28
  else if month = 4 ∨ month = 6 ∨ month = 9 ∨ month = 11 then 30
  else 31

/-- Models the `datetime.date(year, month, day)` constructor, which
raises `ValueError` on an out-of-range component. -/
def mkDate (year month day : Int) : Except PyErr PyDate :=
  if 1 ≤ month ∧ month ≤ 12 ∧ 1 ≤ day ∧ day ≤ daysInMonth year month ∧
      1 ≤ year ∧ year ≤ 9999 then
    .ok ⟨year, month, day⟩
  else
    .error (.valueError "day is out of range for month")

/-! ## HTML document model (BeautifulSoup trees)

An HTML page already parsed by `BeautifulSoup(html, "html.parser")` is a
tree of `Tag` elements and `NavigableString` text nodes.  Equality of
nodes is structural, matching bs4 `Tag.__eq__` (deep comparison of name,
attributes and contents). -/

inductive Html where
  | text (s : String)
  | tag (name : String) (attrs : List (String × String)) (children : List Html)

mutual

/-- Structural node equality, modelling bs4 `Tag.__eq__` (deep
comparison of name, attributes and contents) and string equality of
`NavigableString`s. -/
def Html.beq : Html → Html → Bool
  | .text s, .text t => s = t
  | .tag n a cs, .tag m b ds => n = m && a = b && Html.beqList cs ds
  | .text _, .tag _ _ _ => false
  | .tag _ _ _, .text _ => false

/-- Pointwise `Html.beq` on child lists. -/
def Html.beqList : List Html → List Html → Bool
  | [], [] => true
  | c :: cs, d :: ds => Html.beq c d && Html.beqList cs ds
  | [], _ :: _ => false
  | _ :: _, [] => false

end

instance : BEq Html := ⟨Html.beq⟩

/-- Element test (`Tag` versus `NavigableString`). -/
def Html.isElem : Html → Bool
  | .text _ => false
  | .tag _ _ _ => true

/-- Tag-name test for elements. -/
def Html.isTagNamed (n : String) : Html → Bool
  | .text _ => false
  | .tag name _ _ => name = n

/-- Attribute lookup on an element (first binding wins, as in the HTML
parser). -/
def Html.attr? (a : String) : Html → Option String
  | .text _ => none
  | .tag _ attrs _ => (attrs.find? (fun p => p.1 = a)).map Prod.snd

/-- Models bs4 `class_=` matching: the `class` attribute is a
whitespace-separated token list and the query matches one token. -/
def Html.hasClass (cls : String) (n : Html) : Bool :=
  match n.attr? "class" with
  | none => false
  | some v => (pySplitWs v).contains cls

/-- Models bs4 attribute-dict matching such as
`find("div", \x7b"class": "txtTopo", "id": "u20"\x7d)`: the `class`
entry matches as a class token, other entries match exactly. -/
def Html.matchesAttrs (wanted : List (String × String)) (n : Html) : Bool :=
  wanted.all (fun p =>
    if p.1 = "class" then n.hasClass p.2
    else n.attr? p.1 = some p.2)

mutual

/-- All descendant nodes of a node, text nodes included, in document
order (pre-order), excluding the node itself: the search space of bs4
`find` / `find_all`. -/
def Html.desc : Html → List Html
  | .text _ => []
  | .tag _ _ cs => Html.descList cs

/-- Descendants of a forest, in document order. -/
def Html.descList : List Html → List Html
  | [] => []
  | c :: cs => c :: (Html.desc c ++ Html.descList cs)

end

/-- Direct children of an element (bs4 `parent.children`). -/
def Html.childrenOf : Html → List Html
  | .text _ => []
  | .tag _ _ cs => cs

mutual

/-- Every descendant node paired with its list of following siblings and
its parent element, in document order.  This is the context needed to
model bs4 `next_sibling` / `find_next_sibling` / `parent`. -/
def Html.ctxs : Html → List (Html × List Html × Html)
  | .text _ => []
  | .tag name attrs cs => Html.ctxsAux (.tag name attrs cs) cs

/-- Helper of `Html.ctxs`: contexts of a suffix of a child list of the
given parent. -/
def Html.ctxsAux (parent : Html) : List Html → List (Html × List Html × Html)
  | [] => []
  | c :: cs => (c, cs, parent) :: (Html.ctxs c ++ Html.ctxsAux parent cs)

end

/-- All element descendants, in document order: bs4 `find_all(True)`. -/
def Html.elems (n : Html) : List Html :=
  n.desc.filter Html.isElem

/-- bs4 `find_all(name)` restricted to a tag name. -/
def Html.findAllTag (name : String) (n : Html) : List Html :=
  n.desc.filter (Html.isTagNamed name)

/-- bs4 `find(name, attrs)`. -/
def Html.findTagWithAttrs (name : String) (wanted : List (String × String))
    (n : Html) : Option Html :=
  (n.findAllTag name).find? (Html.matchesAttrs wanted)

/-- bs4 `find_all(name, class_=cls)`. -/
def Html.findAllTagClass (name cls : String) (n : Html) : List Html :=
  (n.findAllTag name).filter (Html.hasClass cls)

/-- bs4 `find(name, class_=cls)`. -/
def Html.findTagClass (name cls : String) (n : Html) : Option Html :=
  (n.findAllTagClass name cls).head?

mutual

/-- The `NavigableString` contents of a node, in document order. -/
def Html.texts : Html → List String
  | .text s => [s]
  | .tag _ _ cs => Html.textsList cs

/-- Text contents of a forest. -/
def Html.textsList : List Html → List String
  | [] => []
  | c :: cs => Html.texts c ++ Html.textsList cs

end

/-- Models bs4 `get_text(sep, strip=True)`: each text fragment is
stripped, empty fragments are dropped, the remainder is joined with the
separator. -/
def Html.getText (sep : String) (n : Html) : String :=
  String.intercalate sep (((n.texts).map pyStrip).filter (fun s => s ≠ ""))

/-! ## Canonical document model (xml_handler.ParsedItem / ParsedNote) -/

/-- Mirrors dataclass `ParsedItem` of `services/xml_handler.py`. -/
structure ParsedItem where
  name : String
  quantity : PyFloat
  unit : String
  unit_price : PyFloat
  total_price : PyFloat
  ean : Option String := none
deriving DecidableEq, Repr

/-- Mirrors dataclass `ParsedNote` of `services/xml_handler.py`. -/
structure ParsedNote where
  date : PyDate
  seller_name : String
  total_amount : PyFloat
  access_key : String
  items : List ParsedItem
deriving DecidableEq, Repr

/-! ## XML document model (ElementTree)

An invoice already parsed by `xml.etree.ElementTree.fromstring`: every
node is an element with a (possibly namespace-qualified) tag of the form
`\x7buri\x7dlocal`, an attribute dictionary, its text (Python `None` and the
empty string are both modelled as `""`, matching every truthiness test
in the source), and subelements. -/

inductive Xml where
  | elem (tag : String) (attrs : List (String × String)) (text : String)
      (children : List Xml)

/-- Tag of an element. -/
def Xml.tagOf : Xml → String
  | .elem t _ _ _ => t

/-- Text of an element (`""` for Python `None`). -/
def Xml.textOf : Xml → String
  | .elem _ _ t _ => t

/-- Direct subelements (what `for child in element` iterates). -/
def Xml.childrenOf : Xml → List Xml
  | .elem _ _ _ cs => cs

/-- Models `element.attrib.get(key)`. -/
def Xml.attrib? (a : String) : Xml → Option String
  | .elem _ attrs _ _ => (attrs.find? (fun p => p.1 = a)).map Prod.snd

mutual

/-- Descendant elements at any depth, in document order, excluding the
element itself: the search space of the xpath `.//tag`. -/
def Xml.desc : Xml → List Xml
  | .elem _ _ _ cs => Xml.descList cs

/-- Descendants of an element list. -/
def Xml.descList : List Xml → List Xml
  | [] => []
  | c :: cs => c :: (Xml.desc c ++ Xml.descList cs)

end

/-- Models `element.iter()`: the element itself followed by all
descendants, in document order. -/
def Xml.iterAll (e : Xml) : List Xml :=
  e :: e.desc

/-- Namespace URI prefix of the NF-e schema as ElementTree renders
qualified tags. -/
def nfeNs : String := "\x7bhttp://www.portalfiscal.inf.br/nfe\x7d"

/-- Mirrors the local helper `find_first_with_ns` of
`XMLProcessor.parse`: first a namespace-qualified descendant search,
then a namespace-agnostic scan (including the element itself) matching
the tag suffix. -/
def findFirstWithNs (element : Xml) (tagSuffix : String) : Option Xml :=
  match (element.desc.filter (fun e => e.tagOf = nfeNs ++ tagSuffix)).head? with
  | some el => some el
  | none => (element.iterAll).find? (fun e => strEndsWith e.tagOf tagSuffix)

/-- Mirrors the local helper `findall_with_ns` of `XMLProcessor.parse`. -/
def findallWithNs (element : Xml) (tagSuffix : String) : List Xml :=
  let qualified := element.desc.filter (fun e => e.tagOf = nfeNs ++ tagSuffix)
  if !qualified.isEmpty then qualified
  else (element.iterAll).filter (fun e => strEndsWith e.tagOf tagSuffix)

/-! ## XMLProcessor.parse (services/xml_handler.py) -/

/-- Python `a or b` for the stripped optional strings produced by
`_get_text_from_prod`. -/
def orDefault (o : Option String) (d : String) : String :=
  match o with
  | some s => if s = "" then d else s
  | none => d

/-- Mirrors the local helper `_get_text_from_prod` of
`XMLProcessor.parse`: the first direct child of `prod` whose tag ends in
the suffix and whose text is truthy, stripped. -/
def getTextFromProd (prodEl : Xml) (suffix : String) : Option String :=
  (prodEl.childrenOf.find? (fun c => strEndsWith c.tagOf suffix && c.textOf ≠ "")).map
    (fun c => pyStrip c.textOf)

/-- Item extraction for one `det` element of `XMLProcessor.parse`
(returns `none` when the `det` has no `prod`, which the source skips). -/
def parseDet (det : Xml) : Except PyErr (Option ParsedItem) := do
  match findFirstWithNs det "prod" with
  | none => return none
  | some prodEl =>
      let name := orDefault (getTextFromProd prodEl "xProd") ""
      let ean : Option String :=
        match getTextFromProd prodEl "cEAN" with
        | some s => if s = "" then none else some s
        | none => none
      let qComText := orDefault (getTextFromProd prodEl "qCom") "0"
      let vUnComText := orDefault (getTextFromProd prodEl "vUnCom") "0"
      let vProdText := orDefault (getTextFromProd prodEl "vProd") vUnComText
      let uCom := orDefault (getTextFromProd prodEl "uCom") ""
      let some quantity := pyFloat? (pyReplace qComText "," ".")
        | throw (.valueError "could not convert string to float")
      let some unitPrice := pyFloat? (pyReplace vUnComText "," ".")
        | throw (.valueError "could not convert string to float")
      let some totalPrice := pyFloat? (pyReplace vProdText "," ".")
        | throw (.valueError "could not convert string to float")
      return some
        { name := name
          quantity := quantity
          unit := uCom
          unit_price := unitPrice
          total_price := totalPrice
          ean := ean }

/-- Parses `YYYY-MM-DD` text through `map(int, date_text.split("-"))`
and the `datetime.date` constructor, every failure being a
`ValueError`. -/
def parseIsoDate (dateText : String) : Except PyErr PyDate := do
  match pySplitOnStr dateText "-" with
  | [y, m, d] =>
      let some year := pyInt? y | throw (.valueError "invalid literal for int")
      let some month := pyInt? m | throw (.valueError "invalid literal for int")
      let some day := pyInt? d | throw (.valueError "invalid literal for int")
      mkDate year month day
  | _ => throw (.valueError "unpacking error")

/-- Mirrors `XMLProcessor.parse` of `services/xml_handler.py`.  The
input is the ElementTree root of the XML bytes; `uuidHex` is the
entropy `uuid4().hex` draws when the access key must be synthesized. -/
def XMLProcessor.parse (root : Xml) (uuidHex : String) : Except PyErr ParsedNote := do
  -- Data de emissão: ide/dhEmi, date part of the timestamp
  let dateText : String :=
    match findFirstWithNs root "dhEmi" with
    | some el => if el.textOf ≠ "" then String.mk (el.textOf.toList.take 10) else ""
    | none => ""
  if dateText = "" then
    throw (.valueError "Data de emissão não encontrada no XML.")
  let emissionDate ← parseIsoDate dateText
  -- Vendedor: emit/xNome
  let sellerText : String :=
    match findFirstWithNs root "emit" with
    | some emitEl =>
        match findFirstWithNs emitEl "xNome" with
        | some xnomeEl => xnomeEl.textOf
        | none => ""
    | none => ""
  if sellerText = "" then
    throw (.valueError "Nome do vendedor não encontrado no XML.")
  let rawSeller := pyStrip sellerText
  let cleanedSeller :=
    pyReplace (pyReplace (pyReplace rawSeller "\\n" " ") "\n" " ") "\r" " "
  let sellerName := String.intercalate " " (pySplitWs cleanedSeller)
  -- Valor total: total/ICMSTot/vNF
  let vnfText : String :=
    match findFirstWithNs root "vNF" with
    | some el => el.textOf
    | none => ""
  if vnfText = "" then
    throw (.valueError "Valor total da nota não encontrado no XML.")
  let some totalAmount := pyFloat? (pyReplace vnfText "," ".")
    | throw (.valueError "could not convert string to float")
  -- Chave de acesso: atributo Id de infNFe, senão sintetizada
  let docKey : String :=
    match findFirstWithNs root "infNFe" with
    | some infEl =>
        match infEl.attrib? "Id" with
        | some a => if a ≠ "" then pyStrip (pyReplace a "NFe" "") else ""
        | none => ""
    | none => ""
  let accessKey := if docKey = "" then "XML-" ++ uuidHex else docKey
  -- Itens: tags det
  let parsed ← (findallWithNs root "det").mapM parseDet
  let items := parsed.filterMap id
  if items = [] then
    throw (.valueError "Nenhum item de produto encontrado no XML.")
  else
    pure
      { date := emissionDate
        seller_name := sellerName
        total_amount := totalAmount
        access_key := accessKey
        items := items }

/-! ## Regex scanners used by the scraper adapters

The handful of regular expressions in `services/scraper_handler.py` are
modelled by dedicated left-to-right scanners.  `re.findall` scans
non-overlapping matches left to right; the sweeps below scan every
position, which yields the same leftmost matches (the label patterns
cannot re-match inside a previous match in a way that changes the first
accepted key, since a captured key group consists of digit/space
characters only). -/

/-- Models Python `str.upper()` (ASCII letters). -/
def pyUpper (s : String) : String :=
  String.mk (s.toList.map Char.toUpper)

/-- Models `re.sub(r'\s+', '', s)`: erase all whitespace. -/
def removeWs (s : String) : String :=
  String.mk (s.toList.filter (fun c => !isWs c))

/-- Models `re.sub(r'[^\d\s]', '', s)`: keep only digits and
whitespace. -/
def keepDigitsWs (s : String) : String :=
  String.mk (s.toList.filter (fun c => c.isDigit || isWs c))

/-- Models `len(s) == 44 and s.isdigit()`. -/
def is44Digits (s : String) : Bool :=
  s.length = 44 && s.toList.all Char.isDigit

/-- Character chunks of four, as built by
`[clean_key[i:i+4] for i in range(0, len(clean_key), 4)]` (fuel makes
the recursion structural; each step consumes at least one character). -/
def chunksOf4Aux : Nat → List Char → List String
  | 0, _ => []
  | fuel + 1, cs =>
      if cs = [] then []
      else String.mk (cs.take 4) :: chunksOf4Aux fuel (cs.drop 4)

/-- Character chunks of four. -/
def chunksOf4 (cs : List Char) : List String :=
  chunksOf4Aux cs.length cs

/-- Formats a clean 44-digit key with a space every four digits. -/
def formatKey44 (cleanKey : String) : String :=
  String.intercalate " " (chunksOf4 cleanKey.toList)

/-- Case-insensitive ASCII literal match at the head of the input,
returning the remainder. -/
def matchCI : List Char → List Char → Option (List Char)
  | [], cs => some cs
  | _ :: _, [] => none
  | l :: ls, c :: cs => if c.toLower = l.toLower then matchCI ls cs else none

/-- Literal string version of `matchCI`. -/
def matchCIs (lit : String) (cs : List Char) : Option (List Char) :=
  matchCI lit.toList cs

/-- Match one character satisfying a predicate. -/
def matchChar (p : Char → Bool) : List Char → Option (List Char)
  | [] => none
  | c :: cs => if p c then some cs else none

/-- Optionally match one character satisfying a predicate (regex `x?`). -/
def matchOptChar (p : Char → Bool) (cs : List Char) : List Char :=
  match cs with
  | [] => []
  | c :: rest => if p c then rest else cs

/-- Regex `\s*`. -/
def skipWs (cs : List Char) : List Char :=
  cs.dropWhile isWs

/-- Regex `\s+`: at least one whitespace character. -/
def matchWs1 (cs : List Char) : Option (List Char) :=
  match cs with
  | c :: rest => if isWs c then some (rest.dropWhile isWs) else none
  | [] => none

/-- Maximal run of characters of a class, at least one (regex `[..]+`),
returning the run and the remainder. -/
def matchRun1 (p : Char → Bool) (cs : List Char) : Option (List Char × List Char) :=
  let run := cs.takeWhile p
  if run = [] then none else some (run, cs.dropWhile p)

/-- Exactly `n` decimal digits (regex `\d{n}`). -/
def matchDigits (n : Nat) (cs : List Char) : Option (List Char × List Char) :=
  let pre := cs.take n
  if pre.length = n ∧ pre.all Char.isDigit then some (pre, cs.drop n) else none

/-- Word character for the regex `\b` boundary and `\w` class (ASCII). -/
def isWordChar (c : Char) : Bool :=
  c.isAlphanum || c = '_'

/-- Regex `\d{2}/\d{2}/\d{4}`, returning day/month/year digit strings
and the remainder. -/
def matchDateCore (cs : List Char) : Option ((String × String × String) × List Char) := do
  let (dd, r1) ← matchDigits 2 cs
  let r2 ← matchChar (fun c => c = '/') r1
  let (mm, r3) ← matchDigits 2 r2
  let r4 ← matchChar (fun c => c = '/') r3
  let (yyyy, r5) ← matchDigits 4 r4
  return ((String.mk dd, String.mk mm, String.mk yyyy), r5)

/-- Regex `\s+\d{2}:\d{2}:\d{2}` (the optional timezone suffix of the
source patterns never affects whether the pattern matches). -/
def matchTimePart (cs : List Char) : Option (List Char) := do
  let r0 ← matchWs1 cs
  let (_, r1) ← matchDigits 2 r0
  let r2 ← matchChar (fun c => c = ':') r1
  let (_, r3) ← matchDigits 2 r2
  let r4 ← matchChar (fun c => c = ':') r3
  let (_, r5) ← matchDigits 2 r4
  return r5

/-- Regex `[aã]` case-insensitively. -/
def matchATilde (cs : List Char) : Option (List Char) :=
  matchChar (fun c => c = 'a' || c = 'A' || c = 'ã' || c = 'Ã') cs

/-- Regex `Emiss[aã]o` case-insensitively. -/
def matchEmissao (cs : List Char) : Option (List Char) := do
  let r1 ← matchCIs "emiss" cs
  let r2 ← matchATilde r1
  matchCIs "o" r2

/-- Regex `Emiss[aã]o\s*:\s*` case-insensitively. -/
def matchEmissaoLabel (cs : List Char) : Option (List Char) := do
  let r1 ← matchEmissao cs
  let r2 ← matchChar (fun c => c = ':') (skipWs r1)
  return skipWs r2

/-- All suffixes of the input, paired with the character preceding each
(for `\b` boundaries), leftmost first. -/
def suffixesWithPrev (prev : Option Char) : List Char → List (Option Char × List Char)
  | [] => [(prev, [])]
  | c :: cs => (prev, c :: cs) :: suffixesWithPrev (some c) cs

/-- Candidates of a sweep applying a positional matcher at every
position, leftmost first. -/
def sweep {α : Type} (m : List Char → Option α) (text : String) : List α :=
  (suffixesWithPrev none text.toList).filterMap (fun p => m p.2)

/-- Matches of `Emiss[aã]o\s*:\s*(\d{2}/\d{2}/\d{4})`. -/
def emissaoDateSweep (text : String) : List (String × String × String) :=
  sweep (fun cs => do
    let r ← matchEmissaoLabel cs
    let (d, _) ← matchDateCore r
    return d) text

/-- Matches of `Emiss[aã]o\s*:\s*(\d{2}/\d{2}/\d{4}\s+\d{2}:\d{2}:\d{2}...)`. -/
def emissaoDateTimeSweep (text : String) : List (String × String × String) :=
  sweep (fun cs => do
    let r ← matchEmissaoLabel cs
    let (d, r1) ← matchDateCore r
    let _ ← matchTimePart r1
    return d) text

/-- Matches of `Data\s+Emiss[aã]o\s*:\s*(date time)`. -/
def dataEmissaoDateTimeSweep (text : String) : List (String × String × String) :=
  sweep (fun cs => do
    let r0 ← matchCIs "data" cs
    let r1 ← matchWs1 r0
    let r ← matchEmissaoLabel r1
    let (d, r2) ← matchDateCore r
    let _ ← matchTimePart r2
    return d) text

/-- Matches of the bare `(\d{2}/\d{2}/\d{4}\s+\d{2}:\d{2}:\d{2}...)`
pattern. -/
def bareDateTimeSweep (text : String) : List (String × String × String) :=
  sweep (fun cs => do
    let (d, r1) ← matchDateCore cs
    let _ ← matchTimePart r1
    return d) text

/-- Matches of `\b(\d{2}/\d{2}/\d{4})\b`. -/
def boundedDateSweep (text : String) : List (String × String × String) :=
  (suffixesWithPrev none text.toList).filterMap (fun p => do
    if (p.1.map isWordChar).getD false then none
    else
      let (d, rest) ← matchDateCore p.2
      match rest with
      | c :: _ => if isWordChar c then none else some d
      | [] => some d)

/-- The `re.search(r'Emiss[aã]o:', s)` text-node filter (no whitespace
before the colon in this pattern). -/
def containsEmissaoColon (s : String) : Bool :=
  ((suffixesWithPrev none s.toList).filterMap (fun p => do
    let r ← matchEmissao p.2
    matchChar (fun c => c = ':') r)).length != 0

/-- First candidate day/month/year triple accepted by the
`datetime.date` constructor via `map(int, ...)`; candidates raising
`ValueError` are skipped, as in each extraction loop of
`_extract_date`. -/
def firstValidDate (cands : List (String × String × String)) : Option PyDate :=
  cands.findSome? (fun c =>
    match pyInt? c.1, pyInt? c.2.1, pyInt? c.2.2 with
    | some d, some m, some y =>
        match mkDate y m d with
        | .ok dt => some dt
        | .error _ => none
    | _, _, _ => none)

/-! ## DefaultSefazAdapter (services/scraper_handler.py) -/

/-- Mirrors `_looks_like_sefaz_block_page` of `scraper_handler.py`,
taking the already-parsed page. -/
def looksLikeSefazBlockPage (soup : Html) : Bool :=
  let text := pyLower (soup.getText " ")
  strContains text "acesso negado ao portal" || strContains text "acesso bloqueado"

/-- Mirrors `DefaultSefazAdapter._extract_seller_name`. -/
def DefaultSefazAdapter.extractSellerName (soup : Html) : String :=
  match (soup.ctxs).find? (fun c =>
      Html.isTagNamed "div" c.1 &&
      Html.matchesAttrs [("class", "txtTopo"), ("id", "u20")] c.1) with
  | some (sellerDiv, after, _) =>
      let sellerName := sellerDiv.getText ""
      match (after.filter (fun e =>
          Html.isTagNamed "div" e && Html.hasClass "text" e)).head? with
      | some cnpjDiv =>
          let cnpjText := cnpjDiv.getText ""
          if strContains (pyUpper cnpjText) "CNPJ:" then
            sellerName ++ "; " ++ cnpjText
          else sellerName
      | none => sellerName
  | none =>
      let tryHeading (tagName : String) : Option String :=
        match (soup.findAllTag tagName).head? with
        | some t => let s := t.getText ""; if s ≠ "" then some s else none
        | none => none
      match tryHeading "h1" with
      | some s => s
      | none =>
          match tryHeading "h2" with
          | some s => s
          | none => "Estabelecimento Desconhecido"

/-- Mirrors `DefaultSefazAdapter._extract_total_amount`: the first
whitespace-delimited token of the page text that, after deleting dots
and turning the comma into a dot, parses as a positive float; `0.0`
when no token does.  No labeled search is performed. -/
def DefaultSefazAdapter.extractTotalAmount (soup : Html) : PyFloat :=
  let text := soup.getText " "
  ((pySplitWs text).findSome? (fun token =>
    let tokenNorm := pyReplace (pyReplace token "." "") "," "."
    match pyFloat? tokenNorm with
    | some value => if value.isPos then some value else none
    | none => none)).getD PyFloat.zero

/-- Mirrors `DefaultSefazAdapter._extract_date` (`today` is what
`date.today()` returns).  The four regex stages of the source are the
four sweeps; the leading optional `(?:Número... )?` group of the first
source pattern matches the empty string and is dropped. -/
def DefaultSefazAdapter.extractDate (soup : Html) (today : PyDate) : PyDate :=
  let text := soup.getText " "
  match firstValidDate (emissaoDateSweep text) with
  | some d => d
  | none =>
  match firstValidDate ((soup.ctxs).filterMap (fun c =>
      match c.1 with
      | .text s =>
          if containsEmissaoColon s then
            (emissaoDateSweep (c.2.2.getText " ")).head?
          else none
      | .tag _ _ _ => none)) with
  | some d => d
  | none =>
  match firstValidDate (emissaoDateTimeSweep text) with
  | some d => d
  | none =>
  match firstValidDate (dataEmissaoDateTimeSweep text) with
  | some d => d
  | none =>
  match firstValidDate (bareDateTimeSweep text) with
  | some d => d
  | none =>
  match firstValidDate (boundedDateSweep text) with
  | some d => d
  | none => today

/-! ### Access-key extraction -/

/-- Auxiliary bound: `dropWhile` never lengthens a list. -/
theorem dropWhile_len_le {α : Type} (p : α → Bool) :
    ∀ l : List α, (l.dropWhile p).length ≤ l.length := by
  intro l
  induction l with
  | nil => simp [List.dropWhile]
  | cons a l ih =>
      by_cases h : p a
      · simp only [List.dropWhile, h]
        exact Nat.le_succ_of_le ih
      · simp only [List.dropWhile, h]
        simp

/-- Maximal runs of a character class in the input, left to right
(fuel makes the recursion structural). -/
def classRunsAux (p : Char → Bool) : Nat → List Char → List (List Char)
  | 0, _ => []
  | _, [] => []
  | fuel + 1, c :: cs =>
      if p c then (c :: cs.takeWhile p) :: classRunsAux p fuel (cs.dropWhile p)
      else classRunsAux p fuel cs

/-- Maximal runs of a character class in the input, left to right. -/
def classRuns (p : Char → Bool) (cs : List Char) : List (List Char) :=
  classRunsAux p cs.length cs

/-- Non-overlapping greedy matches of `[0-9\s]{40,50}` inside one
maximal class run: pieces of fifty while at least forty characters
remain (fuel makes the recursion structural). -/
def greedyPieces4050Aux : Nat → List Char → List String
  | 0, _ => []
  | fuel + 1, run =>
      if run.length < 40 then []
      else String.mk (run.take 50) :: greedyPieces4050Aux fuel (run.drop 50)

/-- Greedy `[0-9\s]{40,50}` matches inside one maximal run. -/
def greedyPieces4050 (run : List Char) : List String :=
  greedyPieces4050Aux run.length run

/-- Matches of the bare `([0-9\s]{40,50})` sweep (third pattern of
`_extract_access_key`). -/
def runKeySweep (text : String) : List String :=
  ((classRuns (fun c => c.isDigit || isWs c) text.toList).map greedyPieces4050).flatten

/-- Matches of `Chave\s*de\s*Acesso[^\d]*([0-9\s]{40,50})`
case-insensitively (first and second patterns of
`_extract_access_key`, which coincide under `re.IGNORECASE`).  The
greedy `[^\d]*` runs to the first digit; the captured class run is
capped at fifty characters and must reach forty. -/
def labelKeySweep (text : String) : List String :=
  sweep (fun cs => do
    let r1 ← matchCIs "chave" cs
    let r2 ← matchCIs "de" (skipWs r1)
    let r3 ← matchCIs "acesso" (skipWs r2)
    let afterLabel := r3.dropWhile (fun c => !c.isDigit)
    let run := afterLabel.takeWhile (fun c => c.isDigit || isWs c)
    if run.length < 40 then none
    else some (String.mk (run.take 50))) text

/-- The shared accept-and-format step of every key candidate: strip,
drop whitespace, keep the candidate only when exactly forty-four
digits remain, and then group them in blocks of four. -/
def tryKeyMatches (ms : List String) : Option String :=
  ms.findSome? (fun m =>
    let cleanMatch := removeWs (pyStrip m)
    if is44Digits cleanMatch then some (formatKey44 cleanMatch) else none)

/-- Result of the `next_sibling` walk
`while next_sibling and len(next_sibling.strip()) == 0`. -/
inductive SiblingWalk where
  | stopStr (s : String)
  | noString
  | raiseType
deriving DecidableEq, Repr

/-- The walk over the following siblings of a `strong` tag: whitespace
strings are skipped, a non-whitespace string or a falsy (empty) string
stops the walk, running out of siblings leaves `next_sibling = None`,
and hitting a `Tag` sibling makes `next_sibling.strip()` raise
`TypeError`: bs4 `Tag.__getattr__` resolves the unknown attribute
`strip` to `self.find("strip")`, which yields `None` (or a `Tag`,
never a callable), so the call fails with
`TypeError: NoneType object is not callable`. -/
def siblingWalk : List Html → SiblingWalk
  | [] => .noString
  | .text s :: rest =>
      if s = "" then .noString
      else if pyStrip s = "" then siblingWalk rest
      else .stopStr s
  | .tag _ _ _ :: _ => .raiseType

/-- The scan of the parent's element children in
`_extract_access_key` (bs4 `child != tag` is deep structural equality;
`hasattr(child, 'get_text')` selects `Tag` children). -/
def parentScanKey (parent tag : Html) : Option String :=
  (parent.childrenOf.filter (fun child =>
      !(Html.beq child tag) && child.isElem)).findSome? (fun child =>
    let childText := child.getText ""
    if childText ≠ "" ∧ childText.length ≥ 44 then
      let cleanKey := removeWs childText
      if is44Digits cleanKey then some (formatKey44 cleanKey) else none
    else none)

/-- The loop over `strong` tags of `_extract_access_key`, with sibling
and parent context.  Returns the found key, `none` when the loop falls
through, or the `TypeError` of the sibling walk. -/
def strongLoop : List (Html × List Html × Html) → Except PyErr (Option String)
  | [] => .ok none
  | (tag, after, parent) :: rest =>
      if strContains (pyLower (tag.getText "")) "chave de acesso" then
        let afterParentScan : Except PyErr (Option String) :=
          match parentScanKey parent tag with
          | some k => .ok (some k)
          | none => strongLoop rest
        match siblingWalk after with
        | .raiseType => .error .typeError
        | .stopStr s =>
            let cleanKey := removeWs (keepDigitsWs (pyStrip s))
            if is44Digits cleanKey then .ok (some (formatKey44 cleanKey))
            else afterParentScan
        | .noString => afterParentScan
      else strongLoop rest

/-- Mirrors `DefaultSefazAdapter._extract_access_key` (`uuidHex` is the
entropy `uuid4().hex` draws for the fallback key). -/
def DefaultSefazAdapter.extractAccessKey (soup : Html) (uuidHex : String) :
    Except PyErr String := do
  -- spans with class chave
  let fromChaveSpans : Option String :=
    match (soup.findAllTagClass "span" "chave").head? with
    | some sp =>
        let cleanKey := removeWs (sp.getText "")
        if is44Digits cleanKey then some (formatKey44 cleanKey) else none
    | none => none
  match fromChaveSpans with
  | some k => return k
  | none =>
      -- strong tags labelled "chave de acesso"
      let strongs := (soup.ctxs).filter (fun c => Html.isTagNamed "strong" c.1)
      match ← strongLoop strongs with
      | some k => return k
      | none =>
          -- whole-page text patterns
          let text := soup.getText " "
          match tryKeyMatches (labelKeySweep text) with
          | some k => return k
          | none =>
              match tryKeyMatches (runKeySweep text) with
              | some k => return k
              | none => return ("SCRAPING-" ++ uuidHex)

/-! ### Item extraction -/

mutual

/-- Naive HTML serialization, modelling `str(tag)` on a bs4 node (used
only by the last-resort product-name fallback; attribute and entity
escaping do not arise there). -/
def Html.render : Html → String
  | .text s => s
  | .tag n attrs cs =>
      "<" ++ n ++
        String.join (attrs.map (fun a => " " ++ a.1 ++ "=" ++ "\"" ++ a.2 ++ "\"")) ++
        ">" ++ Html.renderList cs ++ "</" ++ n ++ ">"

/-- Serialization of a node list. -/
def Html.renderList : List Html → String
  | [] => ""
  | c :: cs => Html.render c ++ Html.renderList cs

end

/-- Models `re.search(r'Qtde\.?:?\s*([0-9,.]+)', s, re.IGNORECASE)`,
returning the captured group. -/
def searchQtde (s : String) : Option String :=
  (sweep (fun cs => do
    let r1 ← matchCIs "qtde" cs
    let r2 := matchOptChar (fun c => c = '.') r1
    let r3 := matchOptChar (fun c => c = ':') r2
    let (run, _) ← matchRun1 (fun c => c.isDigit || c = ',' || c = '.') (skipWs r3)
    return String.mk run) s).head?

/-- Models `re.search(r'UN:\s*(\w+)', s, re.IGNORECASE)`. -/
def searchUN (s : String) : Option String :=
  (sweep (fun cs => do
    let r1 ← matchCIs "un" cs
    let r2 ← matchChar (fun c => c = ':') r1
    let (run, _) ← matchRun1 isWordChar (skipWs r2)
    return String.mk run) s).head?

/-- Models `re.search(r'Vl\.?\s*Unit\.?:?\s*([0-9,.]+)', s,
re.IGNORECASE)`. -/
def searchVlUnit (s : String) : Option String :=
  (sweep (fun cs => do
    let r1 ← matchCIs "vl" cs
    let r2 := matchOptChar (fun c => c = '.') r1
    let r3 ← matchCIs "unit" (skipWs r2)
    let r4 := matchOptChar (fun c => c = '.') r3
    let r5 := matchOptChar (fun c => c = ':') r4
    let (run, _) ← matchRun1 (fun c => c.isDigit || c = ',' || c = '.') (skipWs r5)
    return String.mk run) s).head?

/-- Mirrors the local `_to_float` of `_extract_items`: delete dots,
turn the comma into a dot, and convert. -/
def toFloatBR (value : String) : Option PyFloat :=
  pyFloat? (pyReplace (pyReplace value "." "") "," ".")

/-- Keyword fragments that disqualify a text part from being the
product name in the `tabResult` fallback. -/
def nameKeywords : List String :=
  ["código", "qtde", "un:", "vl. unit", "r$", "valor"]

/-- The pipe-separated-parts fallback for the product name: first
stripped part that is longer than three characters, contains no field
keyword, and is not the `niteroi` false positive. -/
def partsFallbackName (firstTd : Html) : String :=
  let allText := firstTd.getText "|"
  let parts := pySplitOnStr allText "|"
  ((parts.map pyStrip).find? (fun part =>
    part ≠ "" &&
    nameKeywords.all (fun kw => !strContains (pyLower part) kw) &&
    part.length > 3 &&
    pyLower part ≠ "niteroi")).getD ""

/-- The direct-children scan of the last-resort name fallback: walks
the children of the first cell, collecting the stripped `str(child)`
of every non-`span` child — a `NavigableString` has `name = None`, so
`hasattr(child, "name") and child.name not in ["span"]` collects
stripped text nodes along with serialized non-`span` elements — and
stops (`break`) at the first `txtTit` span whose text is not
`niteroi`, keeping the texts collected before the stop. -/
def collectUntilSpanHit : List Html → (List String × Option String)
  | [] => ([], none)
  | child :: rest =>
      match child with
      | .tag "span" _ _ =>
          if child.hasClass "txtTit" && pyLower (child.getText "") ≠ "niteroi" then
            ([], some (child.getText ""))
          else collectUntilSpanHit rest
      | .tag _ _ _ =>
          let t := pyStrip child.render
          let (ts, hit) := collectUntilSpanHit rest
          (if t ≠ "" then t :: ts else ts, hit)
      | .text s =>
          let t := pyStrip s
          let (ts, hit) := collectUntilSpanHit rest
          (if t ≠ "" then t :: ts else ts, hit)

/-- The last-resort name fallback, entered when the name so far is
empty or the `niteroi` false positive.  A `txtTit` hit assigns the
span's text and breaks; afterwards `if not name and
direct_children_texts:` falls back to the first collected text that is
not `niteroi` (so a hit with empty text still reaches that search). -/
def lastResortName (firstTd : Html) (name0 : String) : String :=
  let (texts, hit) := collectUntilSpanHit firstTd.childrenOf
  let name1 :=
    match hit with
    | some n => n
    | none => name0
  if name1 = "" ∧ texts ≠ [] then
    (texts.find? (fun t => pyLower t ≠ "niteroi")).getD ""
  else name1

/-- One `tabResult` item row of
`DefaultSefazAdapter._extract_items` (a row whose id starts with
`"Item + "`); `none` when the row contributes no item. -/
def parseResultRow (row : Html) : Option ParsedItem :=
  let tds := row.findAllTag "td"
  match tds.head? with
  | none => none
  | some firstTd =>
      if tds.length < 2 then none
      else
        let name0 :=
          match firstTd.findTagClass "span" "txtTit" with
          | some nameElement => nameElement.getText ""
          | none => partsFallbackName firstTd
        let name :=
          if pyLower name0 = "niteroi" ∨ name0 = "" then
            lastResortName firstTd name0
          else name0
        let qtyText :=
          match firstTd.findTagClass "span" "Rqtd" with
          | some sp => (searchQtde (sp.getText "")).getD "0"
          | none => "0"
        let unitText :=
          match firstTd.findTagClass "span" "RUN" with
          | some sp => (searchUN (sp.getText "")).getD "UN"
          | none => "UN"
        let unitPriceText :=
          match firstTd.findTagClass "span" "RvlUnit" with
          | some sp => (searchVlUnit (sp.getText "")).getD "0"
          | none => "0"
        let totalPriceText :=
          match tds.drop 1 |>.head? with
          | some secondTd =>
              match secondTd.findTagClass "span" "valor" with
              | some totalCell => totalCell.getText ""
              | none => unitPriceText
          | none => unitPriceText
        let quantity := (toFloatBR qtyText).getD PyFloat.zero
        let unitPrice := (toFloatBR unitPriceText).getD PyFloat.zero
        let totalPrice :=
          match toFloatBR totalPriceText with
          | some v => v
          | none => PyFloat.mul unitPrice quantity
        if name ≠ "" && pyLower name ≠ "niteroi" then
          some
            { name := name
              quantity := quantity
              unit := unitText
              unit_price := unitPrice
              total_price := totalPrice }
        else none

/-- One row of the generic-table fallback of
`DefaultSefazAdapter._extract_items`. -/
def parseGenericRow (row : Html) : Option ParsedItem :=
  let cols := row.findAllTag "td"
  if cols.length < 3 then none
  else
    match cols.head? with
    | none => none
    | some c0 =>
        let name := c0.getText ""
        if pyLower name = "niteroi" then none
        else
          let qtyText :=
            match (cols.drop 1).head? with
            | some c => let s := c.getText ""; if s = "" then "0" else s
            | none => "0"
          let unitText :=
            match (cols.drop 2).head? with
            | some c => c.getText ""
            | none => ""
          let unitPriceText :=
            if cols.length > 3 then
              match (cols.drop 3).head? with
              | some c => c.getText ""
              | none => "0"
            else "0"
          let totalPriceText :=
            if cols.length > 4 then
              match (cols.drop 4).head? with
              | some c => c.getText ""
              | none => unitPriceText
            else unitPriceText
          let quantity := (toFloatBR qtyText).getD PyFloat.zero
          let unitPrice := (toFloatBR unitPriceText).getD PyFloat.zero
          let totalPrice :=
            match toFloatBR totalPriceText with
            | some v => v
            | none => PyFloat.mul unitPrice quantity
          if name = "" then none
          else
            some
              { name := name
                quantity := quantity
                unit := unitText
                unit_price := unitPrice
                total_price := totalPrice }

/-- The item accumulation of `DefaultSefazAdapter._extract_items`
before the final emptiness check: the dedicated `tabResult` table when
present, otherwise the first generic table (at least two rows, at
least three header columns) that yields at least one item. -/
def DefaultSefazAdapter.extractItemsCore (soup : Html) : List ParsedItem :=
  match soup.findTagWithAttrs "table" [("id", "tabResult")] with
  | some table =>
      ((table.findAllTag "tr").filter (fun row =>
        match row.attr? "id" with
        | some rowId => strStartsWith rowId "Item + "
        | none => false)).filterMap parseResultRow
  | none =>
      ((soup.findAllTag "table").findSome? (fun table =>
        let rows := table.findAllTag "tr"
        if rows.length < 2 then none
        else
          match rows.head? with
          | none => none
          | some headerRow =>
              let headerCols := headerRow.desc.filter (fun e =>
                Html.isTagNamed "th" e || Html.isTagNamed "td" e)
              if headerCols.length < 3 then none
              else
                let items := (rows.drop 1).filterMap parseGenericRow
                if items.isEmpty then none else some items)).getD []

/-- Mirrors `DefaultSefazAdapter._extract_items`, raising the
`ValueError` of the source when no item survives. -/
def DefaultSefazAdapter.extractItems (soup : Html) : Except PyErr (List ParsedItem) :=
  let items := DefaultSefazAdapter.extractItemsCore soup
  if items.isEmpty then
    .error (.valueError "Não foi possível localizar itens da nota na página HTML.")
  else .ok items

/-! ### DefaultSefazAdapter.parse, with its extraction trace -/

/-- The steps `DefaultSefazAdapter.parse` performs, in source order. -/
inductive ParseStep where
  | blockCheck
  | sellerName
  | totalAmount
  | emissionDate
  | itemsStep
  | accessKeyStep
deriving DecidableEq, Repr

/-- Mirrors `DefaultSefazAdapter.parse`, additionally recording which
extraction steps were performed: the block-page check precedes every
field extraction and a blocked page raises before any of them. -/
def DefaultSefazAdapter.parse (soup : Html) (today : PyDate) (uuidHex : String) :
    List ParseStep × Except PyErr ParsedNote :=
  let normalizedText := pyLower (soup.getText " ")
  if strContains normalizedText "acesso negado ao portal" ||
      strContains normalizedText "acesso bloqueado" then
    ([.blockCheck],
      .error (.valueError
        "Acesso à página da NFC-e foi negado pela SEFAZ. Conteúdo de nota não disponível."))
  else
    let sellerName := DefaultSefazAdapter.extractSellerName soup
    let totalAmount := DefaultSefazAdapter.extractTotalAmount soup
    let emissionDate := DefaultSefazAdapter.extractDate soup today
    match DefaultSefazAdapter.extractItems soup with
    | .error e =>
        ([.blockCheck, .sellerName, .totalAmount, .emissionDate, .itemsStep], .error e)
    | .ok items =>
        match DefaultSefazAdapter.extractAccessKey soup uuidHex with
        | .error e =>
            ([.blockCheck, .sellerName, .totalAmount, .emissionDate, .itemsStep,
              .accessKeyStep], .error e)
        | .ok accessKey =>
            ([.blockCheck, .sellerName, .totalAmount, .emissionDate, .itemsStep,
              .accessKeyStep],
              .ok
                { date := emissionDate
                  seller_name := sellerName
                  total_amount := totalAmount
                  access_key := accessKey
                  items := items })

/-! ## RJSefazNFCeAdapter._extract_total_amount
(the labeled total-to-pay search, which exists only in the RJ adapter) -/

/-- Models
`re.search(r"Valor\s+a\s+pagar\s*R\$[: ]\s*([\d\.,]+)", text, re.IGNORECASE)`,
returning the captured group of the first match. -/
def searchValorAPagar (text : String) : Option String :=
  (sweep (fun cs => do
    let r1 ← matchCIs "valor" cs
    let r2 ← matchWs1 r1
    let r3 ← matchCIs "a" r2
    let r4 ← matchWs1 r3
    let r5 ← matchCIs "pagar" r4
    let r6 ← matchCIs "r$" (skipWs r5)
    let r7 ← matchChar (fun c => c = ':' || c = ' ') r6
    let (run, _) ← matchRun1 (fun c => c.isDigit || c = '.' || c = ',') (skipWs r7)
    return String.mk run) text).head?

/-- Mirrors `RJSefazNFCeAdapter._extract_total_amount`: the value of
the labeled `Valor a pagar R$` pattern, `0.0` when the label is absent
or its value does not convert — with no token fallback. -/
def RJSefazNFCeAdapter.extractTotalAmount (soup : Html) : PyFloat :=
  let text := soup.getText " "
  match searchValorAPagar text with
  | none => PyFloat.zero
  | some valueStr =>
      match pyFloat? (pyReplace (pyReplace valueStr "." "") "," ".") with
      | some v => v
      | none => PyFloat.zero

/-! ## Persistence coordinator (main.py `_persist_parsed_note`)

The database session is explicit: the store holds the committed fiscal
notes, their items and the product-mapping table.  The unique
constraint on `fiscal_notes.access_key` (models.py) makes `db.flush()`
raise `IntegrityError` exactly when the access key is already present;
the coordinator converts that into an HTTP 409 conflict and rolls the
session back.  The `fiscal_items` CHECK constraints of models.py
(`quantity > 0`, `unit_price >= 0`, `total_price >= 0`) make the
database reject a violating item row when its INSERT reaches it —
during the autoflush of a later mapping SELECT or at the final
`db.commit()` — and that `IntegrityError` is not caught by the
coordinator (its `except IntegrityError` guards only the note's
flush). -/

/-- Mirrors enum `FiscalSourceType` of models.py. -/
inductive FiscalSourceType where
  | XML
  | SCRAPING
deriving DecidableEq, Repr

/-- Committed row of the `fiscal_notes` table. -/
structure FiscalNoteRow where
  id : Nat
  date : PyDate
  total_amount : PyFloat
  seller_name : String
  access_key : String
  source_type : FiscalSourceType
deriving DecidableEq, Repr

/-- Committed row of the `fiscal_items` table. -/
structure FiscalItemRow where
  note_id : Nat
  product_name : String
  quantity : PyFloat
  unit_price : PyFloat
  total_price : PyFloat
  category_id : Option Nat
  product_ean : Option String
deriving DecidableEq, Repr

/-- Row of the `product_mapping` table. -/
structure ProductMappingRow where
  raw_description : String
  seller_name : String
  product_ean : String
deriving DecidableEq, Repr

/-- The persistent store visible to `_persist_parsed_note`. -/
structure DbState where
  notes : List FiscalNoteRow
  items : List FiscalItemRow
  mappings : List ProductMappingRow
deriving DecidableEq, Repr

/-- The error surfaced by `_persist_parsed_note`: the HTTP 409
`HTTPException` of the duplicate access key, the
`MultipleResultsFound` that `scalar_one_or_none` raises when the
mapping table holds duplicate (description, seller) rows (the CRUD
collaborator keeps that table duplicate-free), or the uncaught
`IntegrityError` of a `fiscal_items` CHECK-constraint violation. -/
inductive PersistError where
  | conflict (statusCode : Nat) (detail : String)
  | multipleResultsFound
  | integrityError
deriving DecidableEq, Repr

/-- Models SQLAlchemy `scalar_one_or_none`. -/
def scalarOneOrNone {α : Type} (l : List α) : Except PersistError (Option α) :=
  match l with
  | [] => .ok none
  | [x] => .ok (some x)
  | _ :: _ :: _ => .error .multipleResultsFound

/-- The detail string of the 409 conflict raised by
`_persist_parsed_note`. -/
def conflictDetail (accessKey : String) : String :=
  "Nota fiscal já importada. A chave de acesso '" ++ accessKey ++
    "' já existe no sistema."

/-- The per-item canonical-code resolution of `_persist_parsed_note`:
the EAN carried by the parsed item (the document-declared code) if
present, otherwise the verbatim mapping-table lookup. -/
def resolveItemEan (mappings : List ProductMappingRow) (sellerName : String)
    (item : ParsedItem) : Except PersistError (Option String) := do
  let matching := mappings.filter (fun m =>
    m.raw_description = item.name && m.seller_name = sellerName)
  let productMapping ← scalarOneOrNone matching
  match item.ean with
  | some e => return some e
  | none =>
      match productMapping with
      | some m => return some m.product_ean
      | none => return none

/-- The rows the `for item in parsed.items` loop of
`_persist_parsed_note` constructs: one item row per parsed item, with
the resolved code (the CHECK-constraint flushes of the loop are made
explicit in `persistItemsLoop` below, which refines this
construction). -/
def buildItemRows (mappings : List ProductMappingRow) (sellerName : String)
    (noteId : Nat) : List ParsedItem → Except PersistError (List FiscalItemRow)
  | [] => .ok []
  | item :: rest => do
      let productEan ← resolveItemEan mappings sellerName item
      let rows ← buildItemRows mappings sellerName noteId rest
      return ({ note_id := noteId
                product_name := item.name
                quantity := item.quantity
                unit_price := item.unit_price
                total_price := item.total_price
                category_id := none
                product_ean := productEan } : FiscalItemRow) :: rows

/-- The three CHECK constraints of the `fiscal_items` table
(models.py): `quantity > 0`, `unit_price >= 0`, `total_price >= 0`. -/
def fiscalItemRowOk (r : FiscalItemRow) : Bool :=
  r.quantity.isPos && r.unit_price.isNonNeg && r.total_price.isNonNeg

/-- The same three checks on the parsed item whose fields the row
copies verbatim. -/
def parsedItemChecks (it : ParsedItem) : Bool :=
  it.quantity.isPos && it.unit_price.isNonNeg && it.total_price.isNonNeg

/-- Flushing the item row `db.add`ed in the previous loop iteration:
the database evaluates the CHECK constraints on the INSERT, and a
violation raises the `IntegrityError` that `_persist_parsed_note` does
not catch. -/
def flushRow : Option FiscalItemRow → Except PersistError (List FiscalItemRow)
  | none => .ok []
  | some r => if fiscalItemRowOk r then .ok [r] else .error .integrityError

/-- The `for item in parsed.items` loop of `_persist_parsed_note`,
with the session's autoflush explicit: `pending` is the row added in
the previous iteration, flushed by the mapping SELECT of the current
iteration (or, for the last row, by the final `db.commit()`), so a
CHECK violation of row `i` surfaces at step `i + 1` — before that
step's `scalar_one_or_none` — and a violation of the last row at the
commit. -/
def persistItemsLoop (mappings : List ProductMappingRow) (sellerName : String)
    (noteId : Nat) (pending : Option FiscalItemRow) :
    List ParsedItem → Except PersistError (List FiscalItemRow)
  | [] => flushRow pending
  | item :: rest => do
      let flushed ← flushRow pending
      let productEan ← resolveItemEan mappings sellerName item
      let rows ← persistItemsLoop mappings sellerName noteId
        (some { note_id := noteId
                product_name := item.name
                quantity := item.quantity
                unit_price := item.unit_price
                total_price := item.total_price
                category_id := none
                product_ean := productEan }) rest
      return flushed ++ rows

/-- Mirrors `_persist_parsed_note` of main.py.  Returns the resulting
store together with the outcome: on the duplicate-access-key
`IntegrityError` the session is rolled back (the store is returned
unchanged) and the 409 conflict naming the key is raised; a
`MultipleResultsFound` or a CHECK-constraint `IntegrityError` inside
the item loop propagates uncaught and the open transaction never
commits (nothing is written); otherwise the note row and one item row
per parsed item are committed. -/
def persistParsedNote (parsed : ParsedNote) (sourceType : FiscalSourceType)
    (db : DbState) : DbState × Except PersistError FiscalNoteRow :=
  if db.notes.any (fun n => n.access_key = parsed.access_key) then
    -- db.flush() raises IntegrityError; db.rollback() restores the store
    (db, .error (.conflict 409 (conflictDetail parsed.access_key)))
  else
    let note : FiscalNoteRow :=
      { id := db.notes.length + 1
        date := parsed.date
        total_amount := parsed.total_amount
        seller_name := parsed.seller_name
        access_key := parsed.access_key
        source_type := sourceType }
    match persistItemsLoop db.mappings parsed.seller_name note.id none
        parsed.items with
    | .error e =>
        -- the uncaught exception aborts before the transaction commits:
        -- the session is discarded and nothing is written
        (db, .error e)
    | .ok itemRows =>
        ({ db with
            notes := db.notes ++ [note]
            items := db.items ++ itemRows }, .ok note)

/-! ## ScraperImporter (services/scraper_handler.py) and
BrowserHTMLFetcher (services/browser_fetcher.py)

Pages travel as HTML strings here, as in the source; `soupOf` is the
`BeautifulSoup(html, "html.parser")` parser handed in as a parameter.
The durable processed-URL log is explicit: the state of the backup
file at construction, and the sequence of file operations a save
performs. -/

/-- What the processed-URL backup file may hold when the importer is
constructed. -/
inductive BackupFileState where
  | absent
  | unreadable
  | invalidJson
  | stored (urls : List String)

/-- The body of the `try` block of `_load_processed_urls_from_backup`:
reading an unreadable file or invalid JSON raises. -/
def loadBackupRaw : BackupFileState → Except PyErr (List String)
  | .absent => .ok []
  | .unreadable => .error (.valueError "read error")
  | .invalidJson => .error (.valueError "invalid json")
  | .stored urls => .ok urls

/-- Python `set.add` on an insertion-ordered list model of a set. -/
def pySetAdd (l : List String) (u : String) : List String :=
  if l.contains u then l else l ++ [u]

/-- Python `set(iterable)` (deduplication). -/
def pySetOfList (l : List String) : List String :=
  l.foldl pySetAdd []

/-- Mirrors `ScraperImporter._load_processed_urls_from_backup`: any
load error is caught and yields the empty set, so construction never
raises from loading the log. -/
def ScraperImporter.loadProcessedUrlsFromBackup (fs : BackupFileState) : List String :=
  match loadBackupRaw fs with
  | .ok urls => pySetOfList urls
  | .error _ => []

/-- Models `json.dumps` escaping for the URL strings of the log. -/
def jsonEscape (s : String) : String :=
  pyReplace (pyReplace s "\\" "\\\\") "\"" "\\\""

/-- Models `json.dump(list(urls), f, ensure_ascii=False, indent=2)`. -/
def jsonArrayIndent2 (urls : List String) : String :=
  match urls with
  | [] => "[]"
  | _ =>
      "[\n  " ++
        String.intercalate ",\n  " (urls.map (fun u => "\"" ++ jsonEscape u ++ "\"")) ++
        "\n]"

/-- The file operations `open(path, 'w')` followed by a full write
perform on the log file. -/
inductive FileWriteOp where
  | openTruncate
  | writeAll (content : String)
deriving DecidableEq, Repr

/-- Effect of one operation on the on-disk file content (the previous
content never survives an operation: `open(..., 'w')` truncates). -/
def applyFileOp (_previous : String) : FileWriteOp → String
  | .openTruncate => ""
  | .writeAll content => content

/-- Every on-disk content the log file passes through while the
operations run, starting from the previous content: the states an
interruption can leave behind. -/
def fileStates : String → List FileWriteOp → List String
  | st, [] => [st]
  | st, op :: ops => st :: fileStates (applyFileOp st op) ops

/-- The operations `_save_processed_url_to_backup` performs on the log
file: an in-place truncate followed by the write of the whole new JSON
array (no temporary file, no rename). -/
def saveBackupOps (newProcessed : List String) : List FileWriteOp :=
  [.openTruncate, .writeAll (jsonArrayIndent2 newProcessed)]

/-- Mirrors `ScraperImporter._save_processed_url_to_backup`: the URL
joins the in-memory set before the `try` block; `writeOk = false`
models an exception inside it, which is swallowed (`except ...: pass`)
leaving no completed operations. -/
def ScraperImporter.saveProcessedUrlToBackup (processed : List String)
    (url : String) (writeOk : Bool) : List String × List FileWriteOp :=
  let newProcessed := pySetAdd processed url
  (newProcessed, if writeOk then saveBackupOps newProcessed else [])

/-- Mirrors `ScraperImporter._select_adapter_key`. -/
def ScraperImporter.selectAdapterKey (url : String) : String :=
  if strContains url "fazenda.rj.gov.br" then "rj_nfe_moderno" else "default"

/-- Mirrors `_looks_like_rj_block_page` of `browser_fetcher.py`
(a substring check on the raw lowercased HTML). -/
def looksLikeRjBlockPage (html : String) : Bool :=
  strContains (pyLower html) "secretaria de estado de fazenda do rio de janeiro"

/-- Mirrors dataclass `BrowserFetchOptions` of `browser_fetcher.py`. -/
structure BrowserFetchOptions where
  headless : Bool := true
  timeoutMs : Nat := 20000
  waitUntil : String := "networkidle"
  slowMoMs : Nat := 300
  postLoadWaitMs : Nat := 1500
deriving DecidableEq, Repr

/-- Observable events of one `import_from_url` run: the lightweight
HTTP fetch, the adaptation attempt on its HTML, browser launches with
their visibility mode, and the processed-URL log write. -/
inductive ImportEvent where
  | lightFetch
  | lightParse
  | browserLaunch (headless : Bool)
  | saveLog
deriving DecidableEq, Repr

/-- The terminal message of `import_from_url` when the browser-rendered
page still matches the SEFAZ block signature. -/
def blockedAccessMsg : String :=
  "SEFAZ bloqueou o acesso a partir deste IP (mesmo via browser). " ++
    "Para importar NFC-e RJ, configure um proxy (preferencialmente residencial/rotativo)."

/-- Mirrors `BrowserHTMLFetcher.fetch`: one launch in the configured
visibility mode, and — only when that mode was headless and the
rendered page still looks like the generic RJ portal page — exactly one
more launch with a visible browser.  `render b` is the HTML the page
renders to in a session with `headless = b`. -/
def BrowserHTMLFetcher.fetch (opts : BrowserFetchOptions)
    (render : Bool → String) : List ImportEvent × String :=
  let html := render opts.headless
  if looksLikeRjBlockPage html && opts.headless then
    ([.browserLaunch opts.headless, .browserLaunch false], render false)
  else
    ([.browserLaunch opts.headless], html)

/-- Outcome of one `import_from_url` run: the event trace, the returned
note or the propagated exception, the in-memory processed-URL set, and
the operations performed on the durable log file. -/
structure ImportRun where
  trace : List ImportEvent
  result : Except PyErr ParsedNote
  processed : List String
  fileOps : List FileWriteOp
deriving Repr

/-- The browser tier of `import_from_url`: fetch with a real browser,
fail terminally with the proxy-suggesting `ValueError` when the
rendered page still matches the SEFAZ block signature, otherwise parse
and, on success, log the URL. -/
def ScraperImporter.browserStage (soupOf : String → Html)
    (adapterParse : String → Except PyErr ParsedNote) (url : String)
    (render : Bool → String) (processed : List String) (writeOk : Bool)
    (preTrace : List ImportEvent) : ImportRun :=
  let fetched := BrowserHTMLFetcher.fetch {} render
  let htmlBrowser := fetched.2
  if looksLikeSefazBlockPage (soupOf htmlBrowser) then
    { trace := preTrace ++ fetched.1
      result := .error (.valueError blockedAccessMsg)
      processed := processed
      fileOps := [] }
  else
    match adapterParse htmlBrowser with
    | .error e =>
        { trace := preTrace ++ fetched.1
          result := .error e
          processed := processed
          fileOps := [] }
    | .ok result =>
        let saved := ScraperImporter.saveProcessedUrlToBackup processed url writeOk
        { trace := preTrace ++ fetched.1 ++ [.saveLog]
          result := .ok result
          processed := saved.1
          fileOps := saved.2 }

/-- Mirrors `ScraperImporter.import_from_url`.  `lightResult` is what
`requests.get(url, timeout=10).raise_for_status()` yields (the
response text, or the transport/status exception); `render` is the
browser-rendered HTML per visibility mode; `adapterParse` is the
`parse` of the adapter the registry selects for the URL; `writeOk`
models whether writing the log file succeeds. -/
def ScraperImporter.importFromUrl (soupOf : String → Html)
    (adapterParse : String → Except PyErr ParsedNote) (url : String)
    (forceBrowser : Bool) (lightResult : Except PyErr String)
    (render : Bool → String) (processed : List String) (writeOk : Bool) : ImportRun :=
  if forceBrowser then
    -- html_requests = "" is falsy: straight to the browser tier
    ScraperImporter.browserStage soupOf adapterParse url render processed writeOk []
  else
    match lightResult with
    | .error e =>
        -- requests transport failure / non-2xx propagates uncaught
        { trace := [.lightFetch], result := .error e
          processed := processed, fileOps := [] }
    | .ok htmlRequests =>
        if htmlRequests = "" then
          -- empty body is falsy: no block check, no parse attempt
          ScraperImporter.browserStage soupOf adapterParse url render processed
            writeOk [.lightFetch]
        else if looksLikeSefazBlockPage (soupOf htmlRequests) then
          ScraperImporter.browserStage soupOf adapterParse url render processed
            writeOk [.lightFetch]
        else
          match adapterParse htmlRequests with
          | .ok result =>
              let saved := ScraperImporter.saveProcessedUrlToBackup processed url writeOk
              { trace := [.lightFetch, .lightParse, .saveLog]
                result := .ok result
                processed := saved.1
                fileOps := saved.2 }
          | .error (.valueError _) =>
              -- except ValueError: fall through to the browser tier
              ScraperImporter.browserStage soupOf adapterParse url render processed
                writeOk [.lightFetch, .lightParse]
          | .error e =>
              -- any other exception (e.g. TypeError) propagates
              { trace := [.lightFetch, .lightParse], result := .error e
                processed := processed, fileOps := [] }

/-! ## Specification-side definitions

These definitions follow the wording of the specification (not the
source); the theorems below compare the embedded source against
them. -/

/-- Modelled from the spec (product-code precedence, §4.4): a code
sourced directly from the document always wins; otherwise the verbatim
(raw description, seller name) mapping lookup; otherwise null. -/
def productCodePrecedenceSpec (mappings : List ProductMappingRow)
    (sellerName : String) (item : ParsedItem) : Option String :=
  match item.ean with
  | some code => some code
  | none =>
      (mappings.find? (fun m =>
        m.raw_description = item.name && m.seller_name = sellerName)).map
        ProductMappingRow.product_ean

/-- The weak last-resort total heuristic, as the spec words it: the
first whitespace-delimited token of the page text that parses as a
positive number after converting comma-decimal to dot-decimal. -/
def firstPositiveToken (text : String) : PyFloat :=
  ((pySplitWs text).findSome? (fun token =>
    let tokenNorm := pyReplace (pyReplace token "." "") "," "."
    match pyFloat? tokenNorm with
    | some value => if value.isPos then some value else none
    | none => none)).getD PyFloat.zero

/-- Modelled from the spec (total amount, §4.2): search for a labeled
"total to pay" pattern — the one labeled pattern of this codebase,
`Valor a pagar R$` — and return its value; only absent that, fall back
to the first positive-parsing token of the page text. -/
def specTotalToPay (soup : Html) : PyFloat :=
  let text := soup.getText " "
  match searchValorAPagar text with
  | some valueStr =>
      match pyFloat? (pyReplace (pyReplace valueStr "." "") "," ".") with
      | some v => v
      | none => PyFloat.zero
  | none => firstPositiveToken text

/-- The document carries a usable access key: `infNFe` is found, its
`Id` attribute is truthy, and stripping the `NFe` occurrences leaves a
non-empty key. -/
def docKeyPresent (root : Xml) : Bool :=
  match findFirstWithNs root "infNFe" with
  | some infEl =>
      match infEl.attrib? "Id" with
      | some a => a ≠ "" && pyStrip (pyReplace a "NFe" "") ≠ ""
      | none => false
  | none => false

/-- A parsed note with the access key erased, to compare all other
fields across runs. -/
def eraseKey (n : ParsedNote) : ParsedNote :=
  { n with access_key := "" }

/-- The invariant the CRUD collaborator maintains on the mapping
table: no two rows share the (raw description, seller name) pair. -/
def mappingsUnique (db : DbState) : Prop :=
  db.mappings.Pairwise (fun a b =>
    ¬(a.raw_description = b.raw_description ∧ a.seller_name = b.seller_name))

/-! ## Concrete fixtures used by witnesses and counterexamples -/

/-- A fixed `date.today()` value for runs that need one. -/
def exToday : PyDate := ⟨2026, 1, 1⟩

/-- A minimal parsed note. -/
def exNoteSimple : ParsedNote :=
  { date := ⟨2024, 1, 1⟩
    seller_name := "S"
    total_amount := 1
    access_key := "K"
    items := [{ name := "I", quantity := 1, unit := "UN", unit_price := 1,
                total_price := 1 }] }

/-- A SEFAZ block page. -/
def exBlockedSoup : Html :=
  .tag "[document]" [] [.tag "html" [] [.tag "body" [] [
    .text "Acesso negado ao portal da SEFAZ"]]]

/-- A page whose text carries a positive number before the labeled
total-to-pay pattern. -/
def exTotalSoup : Html :=
  .tag "[document]" [] [.tag "body" [] [.text "2,50 Valor a pagar R$: 102,80"]]

/-- A page where a `strong` "Chave de acesso" label is immediately
followed by an element sibling. -/
def exKeyCrashSoup : Html :=
  .tag "[document]" [] [.tag "html" [] [
    .tag "strong" [] [.text "Chave de acesso"],
    .tag "b" [] [.text "1"]]]

/-- An NF-e document with every required field but no `infNFe` `Id`
attribute (parse succeeds, the access key is synthesized). -/
def exXmlNoId : Xml :=
  .elem "nfe" [] "" [
    .elem "ide" [] "" [.elem "dhEmi" [] "2024-03-15T10:00:00-03:00" []],
    .elem "emit" [] "" [.elem "xNome" [] "LOJA EXEMPLO LTDA" []],
    .elem "total" [] "" [.elem "ICMSTot" [] "" [.elem "vNF" [] "38,50" []]],
    .elem "det" [] "" [.elem "prod" [] "" [
      .elem "xProd" [] "ARROZ TIPO 1 KG" [],
      .elem "qCom" [] "2" [],
      .elem "uCom" [] "UN" [],
      .elem "vUnCom" [] "15.00" [],
      .elem "vProd" [] "30.00" []]]]

/-- The same document with a proper `infNFe` `Id` access key. -/
def exXmlWithId : Xml :=
  .elem "nfe" [] "" [
    .elem "infNFe" [("Id", "NFe12345678901234567890123456789012345678901234")] "" [],
    .elem "ide" [] "" [.elem "dhEmi" [] "2024-03-15T10:00:00-03:00" []],
    .elem "emit" [] "" [.elem "xNome" [] "LOJA EXEMPLO LTDA" []],
    .elem "total" [] "" [.elem "ICMSTot" [] "" [.elem "vNF" [] "38,50" []]],
    .elem "det" [] "" [.elem "prod" [] "" [
      .elem "xProd" [] "ARROZ TIPO 1 KG" [],
      .elem "qCom" [] "2" [],
      .elem "uCom" [] "UN" [],
      .elem "vUnCom" [] "15.00" [],
      .elem "vProd" [] "30.00" []]]]

/-- A trivial page parser for importer runs whose page contents do not
matter. -/
def exSoupOf : String → Html := fun _ => .tag "[document]" [] []

/-- Mapping table with one row binding a description to an EAN. -/
def exMappingRow : ProductMappingRow :=
  { raw_description := "ARROZ TIPO 1 KG", seller_name := "LOJA",
    product_ean := "7890000000000" }

/-- Store holding only that mapping row. -/
def exDbMapped : DbState := { notes := [], items := [], mappings := [exMappingRow] }

/-- Store already holding a note with access key `K`. -/
def exDbWithK : DbState :=
  { notes := [{ id := 1, date := ⟨2024, 1, 1⟩, total_amount := 1,
                seller_name := "S", access_key := "K", source_type := .XML }]
    items := []
    mappings := [] }

/-- The empty store. -/
def exDbEmpty : DbState := { notes := [], items := [], mappings := [] }

/-- A parsed note whose single item has quantity `0` — the generic
adapter emits exactly this whenever the `Rqtd` span or its `Qtde`
regex misses (`qty_text` defaults to `"0"`), and the XML path whenever
`qCom` is `"0"`. -/
def exNoteZeroQty : ParsedNote :=
  { date := ⟨2024, 1, 1⟩
    seller_name := "S"
    total_amount := 1
    access_key := "KZ"
    items := [{ name := "I", quantity := PyFloat.zero, unit := "UN",
                unit_price := 1, total_price := 1 }] }

/-- A page holding one well-formed `tabResult` item row. -/
def exItemsSoup : Html :=
  .tag "[document]" [] [.tag "html" [] [
    .tag "table" [("id", "tabResult")] [
      .tag "tr" [("id", "Item + 1")] [
        .tag "td" [] [
          .tag "span" [("class", "txtTit")] [.text "Produto Teste"],
          .tag "span" [("class", "Rqtd")] [.text "Qtde.: 2"],
          .tag "span" [("class", "RUN")] [.text "UN: UN"],
          .tag "span" [("class", "RvlUnit")] [.text "Vl. Unit.: 10,50"]],
        .tag "td" [] [.tag "span" [("class", "valor")] [.text "21,00"]]]]]]

/-- The crash page of the access-key walk, with an item table so that
the adapter reaches the access-key stage. -/
def exKeyCrashPage : Html :=
  .tag "[document]" [] [.tag "html" [] [
    .tag "strong" [] [.text "Chave de acesso"],
    .tag "b" [] [.text "1"],
    .tag "table" [("id", "tabResult")] [
      .tag "tr" [("id", "Item + 1")] [
        .tag "td" [] [
          .tag "span" [("class", "txtTit")] [.text "Produto Teste"],
          .tag "span" [("class", "Rqtd")] [.text "Qtde.: 2"]],
        .tag "td" [] [.tag "span" [("class", "valor")] [.text "21,00"]]]]]]

/-- The generic adapter instantiated as the registry instantiates it,
over the trivial page parser. -/
def exDefaultAdapterParse : String → Except PyErr ParsedNote :=
  fun html => (DefaultSefazAdapter.parse (exSoupOf html) exToday "u").2

/-- A parsed note exercising all three precedence cases: a
document-declared code that disagrees with the mapping row, a mapped
description without a document code, and an orphan item. -/
def exParsedPrecedence : ParsedNote :=
  { date := ⟨2024, 1, 1⟩
    seller_name := "LOJA"
    total_amount := 10
    access_key := "KEYP"
    items :=
      [{ name := "ARROZ TIPO 1 KG", quantity := 1, unit := "UN",
         unit_price := 1, total_price := 1, ean := some "1112223334445" },
       { name := "ARROZ TIPO 1 KG", quantity := 1, unit := "UN",
         unit_price := 1, total_price := 1, ean := none },
       { name := "FEIJAO PRETO 1KG", quantity := 1, unit := "UN",
         unit_price := 1, total_price := 1, ean := none }] }

/-- Rendering oracle whose headless rendering is the RJ portal block
page while the visible rendering is ordinary. -/
def exRenderRj : Bool → String := fun b =>
  if b then "Secretaria de Estado de Fazenda do Rio de Janeiro" else "ok"

/-- Browser-launch events, for counting fetch attempts. -/
def isBrowserLaunch : ImportEvent → Bool
  | .browserLaunch _ => true
  | _ => false

/-- What the generic adapter yields on `exItemsSoup`. -/
def exScrapedNote : ParsedNote :=
  { date := exToday
    seller_name := "Estabelecimento Desconhecido"
    total_amount := 2
    access_key := "SCRAPING-u"
    items := [{ name := "Produto Teste", quantity := 2, unit := "UN",
                unit_price := PyFloat.ofDec 105 1, total_price := 21, ean := none }] }

/-- What the XML normalizer yields on `exXmlNoId` with entropy
`"aaaa"`. -/
def exXmlParsedNote : ParsedNote :=
  { date := ⟨2024, 3, 15⟩
    seller_name := "LOJA EXEMPLO LTDA"
    total_amount := PyFloat.ofDec 385 1
    access_key := "XML-aaaa"
    items := [{ name := "ARROZ TIPO 1 KG", quantity := 2, unit := "UN",
                unit_price := 15, total_price := 30, ean := none }] }

/-! ## Shared helper lemmas -/

/-- A successful item extraction is never empty. -/
theorem extractItems_ok_ne_nil {soup : Html} {l : List ParsedItem}
    (h : DefaultSefazAdapter.extractItems soup = .ok l) : l ≠ [] := by
  unfold DefaultSefazAdapter.extractItems at h
  by_cases he : (DefaultSefazAdapter.extractItemsCore soup).isEmpty
  · simp [he] at h
  · simp [he] at h
    rw [← h]
    simpa [List.isEmpty_iff] using he

/-- `find?` is the head of `filter`. -/
theorem find?_eq_filter_head? {α : Type} (p : α → Bool) :
    ∀ l : List α, l.find? p = (l.filter p).head? := by
  intro l
  induction l with
  | nil => rfl
  | cons a l ih =>
      by_cases h : p a
      · rw [List.find?_cons_of_pos _ h, List.filter_cons_of_pos h]
        rfl
      · rw [List.find?_cons_of_neg _ h, List.filter_cons_of_neg h]
        exact ih

/-- Under the pairwise-uniqueness invariant, at most one mapping row
matches a (description, seller) pair. -/
theorem pairwise_filter_len_le_one (d s : String) :
    ∀ l : List ProductMappingRow,
      l.Pairwise (fun a b =>
        ¬(a.raw_description = b.raw_description ∧ a.seller_name = b.seller_name)) →
      (l.filter (fun m => m.raw_description = d && m.seller_name = s)).length ≤ 1 := by
  intro l
  induction l with
  | nil => intro _; simp
  | cons a l ih =>
      intro hp
      rw [List.pairwise_cons] at hp
      by_cases ha : (a.raw_description = d ∧ a.seller_name = s)
      · have hfl : l.filter (fun m => m.raw_description = d && m.seller_name = s) = [] := by
          rw [List.filter_eq_nil_iff]
          intro x hx
          simp only [Bool.and_eq_true, decide_eq_true_eq]
          intro hxm
          exact hp.1 x hx ⟨ha.1.trans hxm.1.symm, ha.2.trans hxm.2.symm⟩
        simp [List.filter_cons, ha.1, ha.2, hfl]
      · have hcond : (decide (a.raw_description = d) && decide (a.seller_name = s)) = false := by
          by_cases h1 : a.raw_description = d
          · by_cases h2 : a.seller_name = s
            · exact absurd ⟨h1, h2⟩ ha
            · simp [h2]
          · simp [h1]
        simpa [List.filter_cons, hcond] using ih hp.2

/-- Under the invariant, the resolution of `_persist_parsed_note`
computes exactly the spec precedence. -/
theorem resolveItemEan_eq_spec {mappings : List ProductMappingRow}
    (hm : mappings.Pairwise (fun a b =>
      ¬(a.raw_description = b.raw_description ∧ a.seller_name = b.seller_name)))
    (sellerName : String) (item : ParsedItem) :
    resolveItemEan mappings sellerName item =
      .ok (productCodePrecedenceSpec mappings sellerName item) := by
  unfold resolveItemEan productCodePrecedenceSpec
  have hlen := pairwise_filter_len_le_one item.name sellerName mappings hm
  have hfind := find?_eq_filter_head?
    (fun m => m.raw_description = item.name && m.seller_name = sellerName) mappings
  cases hfl2 : mappings.filter
      (fun m => m.raw_description = item.name && m.seller_name = sellerName) with
  | nil =>
      rw [hfl2] at hfind
      cases hean : item.ean <;>
        simp [scalarOneOrNone, hfl2, hfind, hean, Except.bind, bind, pure, Except.pure]
  | cons x xs =>
      cases xs with
      | nil =>
          rw [hfl2] at hfind
          cases hean : item.ean <;>
            simp [scalarOneOrNone, hfl2, hfind, hean, Except.bind, bind, pure, Except.pure]
      | cons y rest =>
          rw [hfl2] at hlen
          simp at hlen

/-- Under the invariant, the item-row loop succeeds and assigns each
row the spec-resolved code. -/
theorem buildItemRows_ok {mappings : List ProductMappingRow}
    (hm : mappings.Pairwise (fun a b =>
      ¬(a.raw_description = b.raw_description ∧ a.seller_name = b.seller_name)))
    (sellerName : String) (noteId : Nat) :
    ∀ items : List ParsedItem,
      ∃ rows : List FiscalItemRow,
        buildItemRows mappings sellerName noteId items = .ok rows ∧
        rows.length = items.length ∧
        rows.map FiscalItemRow.product_ean =
          items.map (productCodePrecedenceSpec mappings sellerName) := by
  intro items
  induction items with
  | nil => exact ⟨[], rfl, rfl, rfl⟩
  | cons item rest ih =>
      obtain ⟨rows, hrows, hlen, hmap⟩ := ih
      refine ⟨{ note_id := noteId, product_name := item.name, quantity := item.quantity,
                unit_price := item.unit_price, total_price := item.total_price,
                category_id := none,
                product_ean := productCodePrecedenceSpec mappings sellerName item } :: rows,
              ?_, by simp [hlen], by simp [hmap]⟩
      unfold buildItemRows
      rw [resolveItemEan_eq_spec hm]
      simp [Except.bind, bind, hrows, pure, Except.pure]

/-- Flushing a pending row either prepends it (when it passes the
CHECK constraints) or aborts the loop with the uncaught
`IntegrityError`. -/
theorem persistItemsLoop_pending (mappings : List ProductMappingRow)
    (sellerName : String) (noteId : Nat) (r : FiscalItemRow) :
    ∀ items : List ParsedItem,
      persistItemsLoop mappings sellerName noteId (some r) items =
        if fiscalItemRowOk r then
          (persistItemsLoop mappings sellerName noteId none items).map
            (fun rows => r :: rows)
        else .error .integrityError := by
  intro items
  by_cases h : fiscalItemRowOk r
  · rw [if_pos h]
    cases items with
    | nil => simp [persistItemsLoop, flushRow, h, Except.map]
    | cons item rest =>
        simp only [persistItemsLoop, flushRow, h, if_pos]
        cases hres : resolveItemEan mappings sellerName item with
        | error e => simp [Except.bind, bind, hres, Except.map]
        | ok productEan =>
            simp only [Except.bind, bind, hres, Except.map]
            cases persistItemsLoop mappings sellerName noteId
                (some { note_id := noteId
                        product_name := item.name
                        quantity := item.quantity
                        unit_price := item.unit_price
                        total_price := item.total_price
                        category_id := none
                        product_ean := productEan }) rest with
            | error e => simp [Except.bind, bind, pure, Except.pure, Except.map]
            | ok rows => simp [Except.bind, bind, pure, Except.pure, Except.map]
  · rw [if_neg h]
    cases items with
    | nil => simp [persistItemsLoop, flushRow, h]
    | cons item rest => simp [persistItemsLoop, flushRow, h, Except.bind, bind]

/-- When every parsed item passes the CHECK constraints the loop
computes exactly the check-free row construction. -/
theorem persistItemsLoop_of_checks (mappings : List ProductMappingRow)
    (sellerName : String) (noteId : Nat) :
    ∀ items : List ParsedItem, items.all parsedItemChecks = true →
      persistItemsLoop mappings sellerName noteId none items =
        buildItemRows mappings sellerName noteId items := by
  intro items
  induction items with
  | nil => intro _; rfl
  | cons item rest ih =>
      intro hc
      simp only [List.all_cons, Bool.and_eq_true] at hc
      obtain ⟨hitem, hrest⟩ := hc
      simp only [persistItemsLoop, buildItemRows, flushRow]
      cases hres : resolveItemEan mappings sellerName item with
      | error e => simp [Except.bind, bind, hres]
      | ok productEan =>
          simp only [Except.bind, bind, hres]
          rw [persistItemsLoop_pending, if_pos (by exact hitem), ih hrest]
          cases buildItemRows mappings sellerName noteId rest with
          | error e => simp [Except.map, pure, Except.pure]
          | ok rows => simp [Except.map, pure, Except.pure]

/-- A successful run of the loop is a successful run of the check-free
row construction, with the same rows. -/
theorem persistItemsLoop_ok_imp (mappings : List ProductMappingRow)
    (sellerName : String) (noteId : Nat) :
    ∀ (items : List ParsedItem) (rows : List FiscalItemRow),
      persistItemsLoop mappings sellerName noteId none items = .ok rows →
      buildItemRows mappings sellerName noteId items = .ok rows := by
  intro items
  induction items with
  | nil => intro rows h; exact h
  | cons item rest ih =>
      intro rows h
      simp only [persistItemsLoop, flushRow] at h
      cases hres : resolveItemEan mappings sellerName item with
      | error e => simp [Except.bind, bind, hres] at h
      | ok productEan =>
          simp only [Except.bind, bind, hres] at h
          rw [persistItemsLoop_pending] at h
          by_cases hok : fiscalItemRowOk
              { note_id := noteId
                product_name := item.name
                quantity := item.quantity
                unit_price := item.unit_price
                total_price := item.total_price
                category_id := none
                product_ean := productEan }
          · rw [if_pos hok] at h
            cases hrest : persistItemsLoop mappings sellerName noteId none rest with
            | error e => rw [hrest] at h; simp [Except.map] at h
            | ok tail =>
                rw [hrest] at h
                simp only [Except.map, pure, Except.pure] at h
                simp only [buildItemRows, Except.bind, bind, hres, ih tail hrest,
                  pure, Except.pure]
                exact h
          · rw [if_neg hok] at h
            simp at h

/-- Under the uniqueness invariant, a note holding a CHECK-violating
item aborts the loop with the uncaught `IntegrityError`. -/
theorem persistItemsLoop_violation {mappings : List ProductMappingRow}
    (hm : mappings.Pairwise (fun a b =>
      ¬(a.raw_description = b.raw_description ∧ a.seller_name = b.seller_name)))
    (sellerName : String) (noteId : Nat) :
    ∀ items : List ParsedItem, items.all parsedItemChecks = false →
      persistItemsLoop mappings sellerName noteId none items =
        .error .integrityError := by
  intro items
  induction items with
  | nil => intro h; simp at h
  | cons item rest ih =>
      intro h
      simp only [persistItemsLoop, flushRow]
      rw [resolveItemEan_eq_spec hm]
      simp only [Except.bind, bind]
      rw [persistItemsLoop_pending]
      by_cases hitem : parsedItemChecks item
      · have hrest : rest.all parsedItemChecks = false := by
          simpa [List.all_cons, hitem] using h
        rw [if_pos (by exact hitem), ih hrest]
        simp [Except.map]
      · rw [if_neg (by simpa [fiscalItemRowOk, parsedItemChecks] using hitem)]

/-- Adding a URL to the in-memory set makes it a member. -/
theorem mem_pySetAdd (l : List String) (u : String) : u ∈ pySetAdd l u := by
  unfold pySetAdd
  split
  · rename_i h
    simpa using h
  · simp

/-! ## Claim theorems -/

/-- C8: for every HTML page whose text contains the phrase
"acesso negado ao portal", the generic adapter raises the
`ExtractionError` immediately, before any field extraction (seller
name, total, date, items, access key) is attempted: the step trace
holds only the block check. -/
theorem blocked_page_rejected_before_extraction
    (soup : Html) (today : PyDate) (uuidHex : String)
    (h : strContains (pyLower (soup.getText " ")) "acesso negado ao portal" = true) :
    DefaultSefazAdapter.parse soup today uuidHex =
      ([ParseStep.blockCheck],
        .error (.valueError
          "Acesso à página da NFC-e foi negado pela SEFAZ. Conteúdo de nota não disponível.")) := by
  unfold DefaultSefazAdapter.parse
  simp [h]

/-- Witness for C8 at a concrete block page. -/
theorem blocked_page_rejected_before_extraction_witness :
    DefaultSefazAdapter.parse exBlockedSoup exToday "u" =
      ([ParseStep.blockCheck],
        .error (.valueError
          "Acesso à página da NFC-e foi negado pela SEFAZ. Conteúdo de nota não disponível.")) :=
  blocked_page_rejected_before_extraction exBlockedSoup exToday "u" (by decide)

/-- C5 counterexample: on a page whose text carries the positive token
`2,50` before the labeled `Valor a pagar R$: 102,80`, the generic
adapter returns `2.5` — the first positive-parsing token — although the
labeled total-to-pay pattern is present with value `102.8`: the generic
extraction does not search for the labeled pattern first. -/
theorem generic_total_ignores_label_cex :
    DefaultSefazAdapter.extractTotalAmount exTotalSoup = PyFloat.ofDec 25 1 ∧
    specTotalToPay exTotalSoup = PyFloat.ofDec 1028 1 ∧
    DefaultSefazAdapter.extractTotalAmount exTotalSoup ≠ specTotalToPay exTotalSoup := by
  decide

/-- C5 (amended): the generic adapter's total extraction performs no
labeled search — it always returns the first whitespace-delimited token
of the page text that parses as a positive number after comma-to-dot
conversion (`0.0` when none does); the labeled "total to pay" search
exists only in the RJ adapter, which returns `0.0` with no token
fallback when the label is absent. -/
theorem generic_total_first_token_only :
    (∀ soup : Html,
        DefaultSefazAdapter.extractTotalAmount soup =
          firstPositiveToken (soup.getText " ")) ∧
    (∀ soup : Html,
        searchValorAPagar (soup.getText " ") = none →
        RJSefazNFCeAdapter.extractTotalAmount soup = PyFloat.zero) := by
  constructor
  · intro soup
    rfl
  · intro soup h
    unfold RJSefazNFCeAdapter.extractTotalAmount
    simp [h]

/-- Witness for C5 (amended) at concrete pages. -/
theorem generic_total_first_token_only_witness :
    DefaultSefazAdapter.extractTotalAmount exTotalSoup =
      firstPositiveToken (exTotalSoup.getText " ") ∧
    RJSefazNFCeAdapter.extractTotalAmount exBlockedSoup = PyFloat.zero :=
  ⟨generic_total_first_token_only.1 exTotalSoup,
    generic_total_first_token_only.2 exBlockedSoup (by decide)⟩

/-- C7: on a page where a `strong` element labelled "Chave de acesso"
is immediately followed by an element sibling, the access-key
extraction raises `TypeError` — bs4 resolves the unknown `strip`
attribute of a `Tag` to `find("strip")`, which is `None`, so
`sibling.strip()` calls a non-callable — instead of returning a found
or synthesized key, and the whole parse propagates the exception,
contradicting the function's own fallback ("If no key found, generate
a UUID-based key as fallback") and the spec's guarantee of a non-empty
synthesized key. -/
theorem access_key_walk_type_error :
    DefaultSefazAdapter.extractAccessKey exKeyCrashSoup "u" = .error .typeError ∧
    (DefaultSefazAdapter.parse exKeyCrashPage exToday "u").2 = .error .typeError := by
  decide

/-- C6: a parse that yields zero line items is a hard failure — a
successful result of the generic HTML adapter or of the XML normalizer
never carries an empty item sequence. -/
theorem parse_success_items_nonempty :
    (∀ (soup : Html) (today : PyDate) (uuidHex : String) (note : ParsedNote),
        (DefaultSefazAdapter.parse soup today uuidHex).2 = .ok note →
        note.items ≠ []) ∧
    (∀ (root : Xml) (uuidHex : String) (note : ParsedNote),
        XMLProcessor.parse root uuidHex = .ok note →
        note.items ≠ []) := by
  constructor
  · intro soup today uuidHex note h
    unfold DefaultSefazAdapter.parse at h
    dsimp only [] at h
    split at h
    · exact absurd h (by simp)
    · split at h
      · exact absurd h (by simp)
      · split at h
        · exact absurd h (by simp)
        · dsimp only at h
          injection h with h
          rw [← h]
          dsimp only
          exact extractItems_ok_ne_nil (by assumption)
  · intro root uuidHex note h
    unfold XMLProcessor.parse at h
    simp only [pure, Except.pure, throw, throwThe, MonadExceptOf.throw, bind,
      Except.bind] at h
    repeat' split at h
    all_goals
      first
      | (simp at h
         done)
      | (injection h with h
         rw [← h]
         dsimp only
         assumption)

/-- When the document carries a usable access key, the key expression
of `XMLProcessor.parse` is non-empty. -/
theorem docKey_ne_of_present (root : Xml) (h : docKeyPresent root = true) :
    (match findFirstWithNs root "infNFe" with
      | some infEl =>
          match infEl.attrib? "Id" with
          | some a => if a ≠ "" then pyStrip (pyReplace a "NFe" "") else ""
          | none => ""
      | none => "") ≠ "" := by
  unfold docKeyPresent at h
  split at h
  · rename_i infEl heq
    split at h
    · rename_i a heq2
      rw [Bool.and_eq_true] at h
      simp only [decide_eq_true_eq] at h
      rw [if_pos h.1]
      exact h.2
    · exact absurd h (by simp)
  · exact absurd h (by simp)

/-- Witness for C6 at concrete successful parses of both paths. -/
theorem parse_success_items_nonempty_witness :
    exScrapedNote.items ≠ [] ∧ exXmlParsedNote.items ≠ [] :=
  ⟨parse_success_items_nonempty.1 exItemsSoup exToday "u" exScrapedNote (by decide),
    parse_success_items_nonempty.2 exXmlNoId "aaaa" exXmlParsedNote (by decide)⟩

/-- C9 counterexample: `exXmlNoId` is a well-formed invoice on which
`XMLProcessor.parse` succeeds, yet two runs (two `uuid4` draws) return
different results — the synthesized access key differs, so the parse is
not a deterministic function of the input bytes. -/
theorem xml_parse_uuid_nondeterminism_cex :
    (XMLProcessor.parse exXmlNoId "aaaa").isOk = true ∧
    (XMLProcessor.parse exXmlNoId "bbbb").isOk = true ∧
    XMLProcessor.parse exXmlNoId "aaaa" ≠ XMLProcessor.parse exXmlNoId "bbbb" := by
  decide

/-- C9 (amended): re-parsing the same bytes is deterministic in every
field except the access key, and fully deterministic whenever the
document itself carries the access key (`infNFe` with a usable `Id`
attribute); only the synthesized-key fallback depends on fresh
entropy. -/
theorem xml_parse_deterministic_modulo_synth_key (root : Xml) (u₁ u₂ : String) :
    (XMLProcessor.parse root u₁).map eraseKey =
      (XMLProcessor.parse root u₂).map eraseKey ∧
    (docKeyPresent root = true →
      XMLProcessor.parse root u₁ = XMLProcessor.parse root u₂) := by
  constructor
  · unfold XMLProcessor.parse
    simp only [pure, Except.pure, throw, throwThe, MonadExceptOf.throw, bind,
      Except.bind]
    repeat' split
    all_goals simp [eraseKey, Except.map]
  · intro hdoc
    unfold XMLProcessor.parse
    simp only [pure, Except.pure, throw, throwThe, MonadExceptOf.throw, bind,
      Except.bind]
    repeat' split
    all_goals
      first
      | rfl
      | (rename_i hkey
         exact absurd hkey (docKey_ne_of_present root hdoc))

/-- A successful browser-tier import logs the URL: the save event is in
the trace, the URL joins the in-memory set, and the file receives the
whole-array write. -/
theorem browserStage_ok_saves (soupOf : String → Html)
    (ap : String → Except PyErr ParsedNote) (url : String)
    (render : Bool → String) (processed : List String) (pre : List ImportEvent)
    (h : (ScraperImporter.browserStage soupOf ap url render processed true pre).result.isOk
      = true) :
    ImportEvent.saveLog ∈
      (ScraperImporter.browserStage soupOf ap url render processed true pre).trace ∧
    (ScraperImporter.browserStage soupOf ap url render processed true pre).processed.contains
      url = true ∧
    (ScraperImporter.browserStage soupOf ap url render processed true pre).fileOps =
      saveBackupOps
        (ScraperImporter.browserStage soupOf ap url render processed true pre).processed := by
  revert h
  unfold ScraperImporter.browserStage
  dsimp only []
  split
  · intro h
    simp [Except.isOk, Except.toBool] at h
  · split
    · intro h
      simp [Except.isOk, Except.toBool] at h
    · intro _
      simp [ScraperImporter.saveProcessedUrlToBackup, mem_pySetAdd]

/-- Witness for C9 (amended) at a document carrying its access key. -/
theorem xml_parse_deterministic_modulo_synth_key_witness :
    XMLProcessor.parse exXmlWithId "aaaa" = XMLProcessor.parse exXmlWithId "bbbb" :=
  (xml_parse_deterministic_modulo_synth_key exXmlWithId "aaaa" "bbbb").2 (by decide)

/-- C4 counterexample: saving the log truncates the file in place
before writing, so mid-write the file content is the empty string —
neither the previous complete JSON array nor the new one.  An
interruption between the truncation and the write leaves a corrupted
log. -/
theorem processed_log_midwrite_state_cex :
    "" ∈ fileStates (jsonArrayIndent2 ["http://a"])
        (saveBackupOps ["http://a", "http://b"]) ∧
    "" ≠ jsonArrayIndent2 ["http://a"] ∧
    "" ≠ jsonArrayIndent2 ["http://a", "http://b"] := by
  decide

/-- C4 (amended): after every successful URL import the URL joins the
in-memory processed set and the whole log file is rewritten with the
complete new JSON array — but in place, by truncating and then
writing, not atomically: the on-disk states are exactly the previous
content, then empty, then the new complete array, so only completion
(not interruption) leaves a well-formed log. -/
theorem processed_log_write_whole_not_atomic :
    (∀ (soupOf : String → Html) (ap : String → Except PyErr ParsedNote)
        (url : String) (forceBrowser : Bool) (lightResult : Except PyErr String)
        (render : Bool → String) (processed : List String),
      (ScraperImporter.importFromUrl soupOf ap url forceBrowser lightResult render
          processed true).result.isOk = true →
      ImportEvent.saveLog ∈ (ScraperImporter.importFromUrl soupOf ap url forceBrowser
          lightResult render processed true).trace ∧
      (ScraperImporter.importFromUrl soupOf ap url forceBrowser lightResult render
          processed true).processed.contains url = true ∧
      (ScraperImporter.importFromUrl soupOf ap url forceBrowser lightResult render
          processed true).fileOps =
        saveBackupOps (ScraperImporter.importFromUrl soupOf ap url forceBrowser
          lightResult render processed true).processed) ∧
    (∀ (old : String) (urls : List String),
      fileStates old (saveBackupOps urls) = [old, "", jsonArrayIndent2 urls]) := by
  constructor
  · intro soupOf ap url forceBrowser lightResult render processed
    unfold ScraperImporter.importFromUrl
    dsimp only []
    split
    · exact browserStage_ok_saves soupOf ap url render processed []
    · split
      · intro h
        simp [Except.isOk, Except.toBool] at h
      · split
        · exact browserStage_ok_saves soupOf ap url render processed [.lightFetch]
        · split
          · exact browserStage_ok_saves soupOf ap url render processed [.lightFetch]
          · split
            · intro _
              simp [ScraperImporter.saveProcessedUrlToBackup, mem_pySetAdd]
            · exact browserStage_ok_saves soupOf ap url render processed
                [.lightFetch, .lightParse]
            · intro h
              simp [Except.isOk, Except.toBool] at h
  · intro old urls
    rfl

/-- Witness for C4 (amended) on a concrete successful import and a
concrete log rewrite. -/
theorem processed_log_write_whole_not_atomic_witness :
    (ImportEvent.saveLog ∈ (ScraperImporter.importFromUrl exSoupOf
        (fun _ => .ok exNoteSimple) "http://x" true (.ok "") (fun _ => "x") []
        true).trace ∧
      (ScraperImporter.importFromUrl exSoupOf (fun _ => .ok exNoteSimple) "http://x"
          true (.ok "") (fun _ => "x") [] true).processed.contains "http://x" = true ∧
      (ScraperImporter.importFromUrl exSoupOf (fun _ => .ok exNoteSimple) "http://x"
          true (.ok "") (fun _ => "x") [] true).fileOps =
        saveBackupOps (ScraperImporter.importFromUrl exSoupOf
          (fun _ => .ok exNoteSimple) "http://x" true (.ok "") (fun _ => "x") []
          true).processed) ∧
    fileStates "[]" (saveBackupOps ["http://x"]) =
      ["[]", "", jsonArrayIndent2 ["http://x"]] :=
  ⟨processed_log_write_whole_not_atomic.1 exSoupOf (fun _ => .ok exNoteSimple)
      "http://x" true (.ok "") (fun _ => "x") [] (by decide),
    processed_log_write_whole_not_atomic.2 "[]" ["http://x"]⟩

/-- C10: constructing the importer is total with respect to the log
file — every load failure (missing file, unreadable file, invalid
JSON) is swallowed and yields the empty in-memory set — and a failure
while writing the log after a successful import is swallowed too: the
returned result, the in-memory set and the event trace are the same
whether or not the write succeeds. -/
theorem importer_log_errors_swallowed :
    (∀ (fs : BackupFileState) (e : PyErr),
        loadBackupRaw fs = .error e →
        ScraperImporter.loadProcessedUrlsFromBackup fs = []) ∧
    (ScraperImporter.loadProcessedUrlsFromBackup .absent = []) ∧
    (∀ (soupOf : String → Html) (ap : String → Except PyErr ParsedNote)
        (url : String) (forceBrowser : Bool) (lightResult : Except PyErr String)
        (render : Bool → String) (processed : List String),
      (ScraperImporter.importFromUrl soupOf ap url forceBrowser lightResult render
          processed false).result =
        (ScraperImporter.importFromUrl soupOf ap url forceBrowser lightResult render
          processed true).result ∧
      (ScraperImporter.importFromUrl soupOf ap url forceBrowser lightResult render
          processed false).processed =
        (ScraperImporter.importFromUrl soupOf ap url forceBrowser lightResult render
          processed true).processed ∧
      (ScraperImporter.importFromUrl soupOf ap url forceBrowser lightResult render
          processed false).trace =
        (ScraperImporter.importFromUrl soupOf ap url forceBrowser lightResult render
          processed true).trace) := by
  refine ⟨?_, ?_, ?_⟩
  · intro fs e h
    unfold ScraperImporter.loadProcessedUrlsFromBackup
    rw [h]
  · rfl
  · intro soupOf ap url forceBrowser lightResult render processed
    unfold ScraperImporter.importFromUrl ScraperImporter.browserStage
      ScraperImporter.saveProcessedUrlToBackup
    dsimp only []
    refine ⟨?_, ?_, ?_⟩ <;> (repeat' split) <;> rfl

/-- Witness for C10 on the invalid-JSON state and a concrete run. -/
theorem importer_log_errors_swallowed_witness :
    ScraperImporter.loadProcessedUrlsFromBackup .invalidJson = [] ∧
    (ScraperImporter.importFromUrl exSoupOf (fun _ => .ok exNoteSimple) "http://x"
        true (.ok "") (fun _ => "x") [] false).result =
      (ScraperImporter.importFromUrl exSoupOf (fun _ => .ok exNoteSimple) "http://x"
        true (.ok "") (fun _ => "x") [] true).result :=
  ⟨importer_log_errors_swallowed.1 .invalidJson (.valueError "invalid json") rfl,
    (importer_log_errors_swallowed.2.2 exSoupOf (fun _ => .ok exNoteSimple) "http://x"
      true (.ok "") (fun _ => "x") []).1⟩

/-- C1 counterexample: a parsed note whose single item has quantity
`0` and whose access key is fresh does not import successfully — the
`fiscal_items` CHECK constraint `quantity > 0` makes the commit raise
an `IntegrityError` that `_persist_parsed_note` does not catch — and
nothing is persisted, refuting the claim that importing any parsed
note with a fresh access key succeeds and persists the note. -/
theorem persist_check_violation_cex :
    exDbEmpty.notes.any (fun n => n.access_key = exNoteZeroQty.access_key) = false ∧
    persistParsedNote exNoteZeroQty .SCRAPING exDbEmpty =
      (exDbEmpty, .error .integrityError) := by
  decide

/-- C1 (amended): a duplicate access key makes the flush raise, is
converted into the explicit HTTP 409 conflict whose detail names the
offending key, and rolls the pending note back (the store is returned
unchanged, no item row is written); a fresh access key commits the
note row and one item row per item whenever every item satisfies the
`fiscal_items` CHECK constraints (`quantity > 0`, `unit_price >= 0`,
`total_price >= 0`); and a fresh key with a CHECK-violating item makes
the commit raise an `IntegrityError` the coordinator does not catch —
no 409 is produced and nothing is persisted. -/
theorem persist_conflict_and_success
    (parsed : ParsedNote) (sourceType : FiscalSourceType) (db : DbState)
    (hm : mappingsUnique db) :
    (db.notes.any (fun n => n.access_key = parsed.access_key) = true →
        persistParsedNote parsed sourceType db =
          (db, .error (.conflict 409 (conflictDetail parsed.access_key))) ∧
        conflictDetail parsed.access_key =
          "Nota fiscal já importada. A chave de acesso '" ++ parsed.access_key ++
            "' já existe no sistema.") ∧
    (db.notes.any (fun n => n.access_key = parsed.access_key) = false →
        parsed.items.all parsedItemChecks = true →
        ∃ rows : List FiscalItemRow,
          rows.length = parsed.items.length ∧
          persistParsedNote parsed sourceType db =
            ({ notes := db.notes ++
                  [{ id := db.notes.length + 1, date := parsed.date,
                     total_amount := parsed.total_amount,
                     seller_name := parsed.seller_name,
                     access_key := parsed.access_key, source_type := sourceType }],
               items := db.items ++ rows,
               mappings := db.mappings },
              .ok { id := db.notes.length + 1, date := parsed.date,
                    total_amount := parsed.total_amount,
                    seller_name := parsed.seller_name,
                    access_key := parsed.access_key, source_type := sourceType })) ∧
    (db.notes.any (fun n => n.access_key = parsed.access_key) = false →
        parsed.items.all parsedItemChecks = false →
        persistParsedNote parsed sourceType db =
          (db, .error .integrityError)) := by
  refine ⟨?_, ?_, ?_⟩
  · intro hc
    unfold persistParsedNote
    rw [if_pos hc]
    exact ⟨rfl, rfl⟩
  · intro hnc hchk
    obtain ⟨rows, hrows, hlen, _⟩ :=
      buildItemRows_ok hm parsed.seller_name (db.notes.length + 1) parsed.items
    refine ⟨rows, hlen, ?_⟩
    unfold persistParsedNote
    rw [if_neg (by simp [hnc])]
    dsimp only []
    rw [persistItemsLoop_of_checks _ _ _ _ hchk, hrows]
  · intro hnc hviol
    unfold persistParsedNote
    rw [if_neg (by simp [hnc])]
    dsimp only []
    rw [persistItemsLoop_violation hm _ _ _ hviol]

/-- Witness for C1 (amended): re-importing access key `K` into a store
already holding it yields the 409 conflict naming `K` and leaves the
store unchanged, while importing the same constraint-satisfying note
into the empty store succeeds with its one item row. -/
theorem persist_conflict_and_success_witness :
    (persistParsedNote exNoteSimple .XML exDbWithK =
        (exDbWithK, .error (.conflict 409 (conflictDetail "K"))) ∧
      conflictDetail "K" =
        "Nota fiscal já importada. A chave de acesso 'K' já existe no sistema.") ∧
    ∃ rows : List FiscalItemRow,
      rows.length = exNoteSimple.items.length ∧
      persistParsedNote exNoteSimple .XML exDbEmpty =
        ({ notes := exDbEmpty.notes ++
              [{ id := exDbEmpty.notes.length + 1, date := exNoteSimple.date,
                 total_amount := exNoteSimple.total_amount,
                 seller_name := exNoteSimple.seller_name,
                 access_key := exNoteSimple.access_key, source_type := .XML }],
           items := exDbEmpty.items ++ rows,
           mappings := exDbEmpty.mappings },
          .ok { id := exDbEmpty.notes.length + 1, date := exNoteSimple.date,
                total_amount := exNoteSimple.total_amount,
                seller_name := exNoteSimple.seller_name,
                access_key := exNoteSimple.access_key, source_type := .XML }) :=
  ⟨(persist_conflict_and_success exNoteSimple .XML exDbWithK List.Pairwise.nil).1
      (by decide),
    (persist_conflict_and_success exNoteSimple .XML exDbEmpty
      List.Pairwise.nil).2.1 (by decide) (by decide)⟩

/-- C2: every persisted item's canonical code follows the fixed
precedence — the document-declared EAN when the item carries one, even
when a mapping-table row for (raw description, seller) disagrees;
otherwise the verbatim mapping lookup; otherwise null. -/
theorem persisted_code_precedence
    (parsed : ParsedNote) (sourceType : FiscalSourceType) (db db2 : DbState)
    (noteRow : FiscalNoteRow) (hm : mappingsUnique db)
    (h : persistParsedNote parsed sourceType db = (db2, .ok noteRow)) :
    (db2.items.drop db.items.length).map FiscalItemRow.product_ean =
      parsed.items.map (productCodePrecedenceSpec db.mappings parsed.seller_name) := by
  unfold persistParsedNote at h
  split at h
  · exact absurd h (by simp)
  · dsimp only [] at h
    split at h
    · exact absurd h (by simp)
    · rename_i rows0 heq
      obtain ⟨rows, hrows, hlen, hmap⟩ :=
        buildItemRows_ok hm parsed.seller_name (db.notes.length + 1) parsed.items
      have hb := persistItemsLoop_ok_imp db.mappings parsed.seller_name
        (db.notes.length + 1) parsed.items rows0 heq
      rw [hrows] at hb
      injection hb with hb
      rw [Prod.mk.injEq] at h
      obtain ⟨h1, _⟩ := h
      rw [← h1]
      dsimp only
      rw [List.drop_left, ← hb]
      exact hmap

/-- The browser fetch runs headless first, and retries visibly exactly
when the headless rendering still looks like the RJ portal page. -/
theorem fetch_events (render : Bool → String) :
    BrowserHTMLFetcher.fetch {} render =
      (if looksLikeRjBlockPage (render true) = true then
        ([ImportEvent.browserLaunch true, ImportEvent.browserLaunch false],
          render false)
      else ([ImportEvent.browserLaunch true], render true)) := by
  unfold BrowserHTMLFetcher.fetch
  dsimp only []
  simp [Bool.and_true]

/-- C3 counterexample: with an empty lightweight response body — a
successful fetch that is not a block page, on which adaptation is never
attempted (no `lightParse` event) and would not fail — the importer
still launches the browser: the rendered fetch is not performed
exclusively under the three conditions the claim lists. -/
theorem url_import_fetch_escalation_cex :
    ImportEvent.browserLaunch true ∈
      (ScraperImporter.importFromUrl exSoupOf exDefaultAdapterParse "http://x" false
        (.ok "") (fun _ => "") [] true).trace ∧
    ImportEvent.lightParse ∉
      (ScraperImporter.importFromUrl exSoupOf exDefaultAdapterParse "http://x" false
        (.ok "") (fun _ => "") [] true).trace ∧
    looksLikeSefazBlockPage (exSoupOf "") = false := by
  decide

/-- Witness for C2 at a store with one mapping row and a note
exercising all three precedence cases. -/
theorem persisted_code_precedence_witness :
    ((persistParsedNote exParsedPrecedence .XML exDbMapped).1.items.drop
        exDbMapped.items.length).map FiscalItemRow.product_ean =
      exParsedPrecedence.items.map
        (productCodePrecedenceSpec exDbMapped.mappings
          exParsedPrecedence.seller_name) :=
  persisted_code_precedence exParsedPrecedence .XML exDbMapped
    (persistParsedNote exParsedPrecedence .XML exDbMapped).1
    { id := 1, date := ⟨2024, 1, 1⟩, total_amount := 10, seller_name := "LOJA",
      access_key := "KEYP", source_type := .XML }
    (List.Pairwise.cons (fun b hb => absurd hb (List.not_mem_nil b))
      List.Pairwise.nil)
    (by decide)

/-- C3 (amended): fetch stages escalate in the fixed order.  The
browser is launched only when the caller forced it, or the lightweight
fetch returned an empty body, or it returned block-page HTML, or
adaptation of the lightweight HTML raised the parse `ValueError`; a
visible (non-headless) session runs at most once and only after the
headless rendering matched the RJ block signature; if the rendered
HTML still matches the SEFAZ block signature the import fails
terminally with the proxy-suggesting error; and no run ever launches
more than two browser sessions. -/
theorem url_import_fetch_escalation
    (soupOf : String → Html) (ap : String → Except PyErr ParsedNote) (url : String)
    (forceBrowser : Bool) (lightResult : Except PyErr String)
    (render : Bool → String) (processed : List String) (writeOk : Bool)
    (r : ImportRun)
    (hr : ScraperImporter.importFromUrl soupOf ap url forceBrowser lightResult
      render processed writeOk = r) :
    ((∃ b, ImportEvent.browserLaunch b ∈ r.trace) →
        forceBrowser = true ∨
        ∃ html, lightResult = .ok html ∧
          (html = "" ∨ looksLikeSefazBlockPage (soupOf html) = true ∨
            ∃ msg, ap html = .error (.valueError msg))) ∧
    r.trace.count (ImportEvent.browserLaunch false) ≤ 1 ∧
    (ImportEvent.browserLaunch false ∈ r.trace →
        looksLikeRjBlockPage (render true) = true ∧
        ImportEvent.browserLaunch true ∈ r.trace) ∧
    ((∃ b, ImportEvent.browserLaunch b ∈ r.trace) →
        looksLikeSefazBlockPage (soupOf (BrowserHTMLFetcher.fetch {} render).2)
          = true →
        r.result = .error (.valueError blockedAccessMsg)) ∧
    strContains blockedAccessMsg "proxy" = true ∧
    r.trace.countP isBrowserLaunch ≤ 2 := by
  subst hr
  refine ⟨?_, ?_, ?_, ?_, by decide, ?_⟩
  · -- escalation conditions
    intro hbr
    obtain ⟨b, hb⟩ := hbr
    revert hb
    unfold ScraperImporter.importFromUrl ScraperImporter.browserStage
    dsimp only []
    split
    · intro _
      exact Or.inl (by assumption)
    · split
      · intro hb
        simp at hb
      · split
        · intro _
          exact Or.inr ⟨_, rfl, Or.inl (by assumption)⟩
        · split
          · intro _
            exact Or.inr ⟨_, rfl, Or.inr (Or.inl (by assumption))⟩
          · split
            · intro hb
              simp at hb
            · intro _
              exact Or.inr ⟨_, rfl, Or.inr (Or.inr ⟨_, by assumption⟩)⟩
            · intro hb
              simp at hb
  · -- at most one visible launch
    unfold ScraperImporter.importFromUrl ScraperImporter.browserStage
    dsimp only []
    rw [fetch_events render]
    repeat' split
    all_goals simp
  · -- visible only after a headless RJ-block rendering
    unfold ScraperImporter.importFromUrl ScraperImporter.browserStage
    dsimp only []
    rw [fetch_events render]
    repeat' split
    all_goals
      intro hmem
      first
      | (refine ⟨?_, ?_⟩
         · assumption
         · simp)
      | (simp at hmem)
  · -- terminal blocked failure
    unfold ScraperImporter.importFromUrl ScraperImporter.browserStage
    dsimp only []
    rw [fetch_events render]
    repeat' split
    all_goals
      first
      | (intro hb hblk
         obtain ⟨b, hb⟩ := hb
         simp at hb
         done)
      | (intro _ _
         rfl)
      | (intro hx hblk
         simp_all)
  · -- never more than two launches
    unfold ScraperImporter.importFromUrl ScraperImporter.browserStage
    dsimp only []
    rw [fetch_events render]
    repeat' split
    all_goals simp [isBrowserLaunch]

/-- Witness for C3 (amended) on a run whose headless rendering is the
RJ portal page, triggering the single visible retry. -/
theorem url_import_fetch_escalation_witness :
    looksLikeRjBlockPage (exRenderRj true) = true ∧
    ImportEvent.browserLaunch true ∈
      (ScraperImporter.importFromUrl exSoupOf (fun _ => .ok exNoteSimple) "http://x"
        true (.ok "") exRenderRj [] true).trace :=
  (url_import_fetch_escalation exSoupOf (fun _ => .ok exNoteSimple) "http://x" true
    (.ok "") exRenderRj [] true _ rfl).2.2.1 (by decide)

end Erp
